import Mathlib

/-!
Shallow embedding of the `HaasMachine` simulation engine (HaasMachine.js)
of the Haas-Backend-V2 repository, together with proofs about its
state-machine, alarm, warning and serialization behaviour.

Modelling conventions:
* JavaScript numbers are modelled as exact rationals (`ℚ`).  None of the
  verified properties depends on binary floating-point rounding.
* Every call to `Math.random()` consumes one value from an explicit
  random stream (`Rng`); draws are taken in exactly the order, and under
  exactly the short-circuit conditions, of the source.
* `Date` timestamps are threaded as an opaque `String` parameter `now`.
* The mutually exclusive type-specific field groups of the JS object are
  modelled as always-present fields (press/laser numerics) and `Option`
  fields (tool/coolant block), initialised exactly as the constructor does
  for the machine's type.
-/

/-- JavaScript `a || b` for an optional numeric spec entry: `0` is falsy. -/
def jsOrQ (o : Option ℚ) (d : ℚ) : ℚ :=
  match o with
  | some v => if v = 0 then d else v
  | none => d

/-- JavaScript `a || b` for an optional `ℕ` spec entry: `0` is falsy. -/
def jsOrN (o : Option ℕ) (d : ℕ) : ℕ :=
  match o with
  | some v => if v = 0 then d else v
  | none => d

/-- JavaScript truthiness of a nullable string (`null` and `""` are falsy). -/
def strTruthy : Option String → Bool
  | none => false
  | some m => m ≠ ""

/-- `Math.round`: round half toward positive infinity. -/
def jsRound (q : ℚ) : ℤ := ⌊q + 1/2⌋

/-- `x.toFixed(n)` read back as a number: round half away from zero at
`n` decimal places (all serialized values in this repo are also re-parsed
with `parseFloat`, so only the numeric value matters). -/
def jsToFixed (n : ℕ) (q : ℚ) : ℚ :=
  if 0 ≤ q then (⌊q * 10 ^ n + 1/2⌋ : ℚ) / 10 ^ n
  else -((⌊-q * 10 ^ n + 1/2⌋ : ℚ) / 10 ^ n)

/-- JavaScript `%` (fmod) restricted to the nonnegative operands used by
the source (`spindleOrientation % 360`). -/
def jsMod (x y : ℚ) : ℚ := x - y * ⌊x / y⌋

/-- Explicit random source: a stream of values (each meant to lie in
`[0,1)`, as `Math.random()` does) plus the index of the next draw. -/
structure Rng where
  stream : ℕ → ℚ
  idx : ℕ

/-- One `Math.random()` call. -/
def Rng.next (r : Rng) : ℚ × Rng := (r.stream r.idx, ⟨r.stream, r.idx + 1⟩)

/-- All values of a stream lie in `[0, 1)`, like `Math.random()` output. -/
def validStream (f : ℕ → ℚ) : Prop := ∀ n, 0 ≤ f n ∧ f n < 1

/-- Machine type tag (constructor argument `type`). -/
inductive MachineType where
  | CNC_MILL | LATHE | PRESS_BRAKE | LASER
  deriving DecidableEq, Repr

/-- Execution mode (`this.execution`). -/
inductive Execution where
  | IDLE | RUNNING | ALARM | STOPPED
  deriving DecidableEq, Repr

/-- Cycle phase (`this.cyclePhase`); mill/lathe use the seven CNC phases,
press brake and laser use `IDLE`/`RUNNING`. -/
inductive Phase where
  | IDLE | SPINDLE_RAMP | RAPID | CUTTING | RETRACT | DWELL | FINISH | RUNNING
  deriving DecidableEq, Repr

/-- One axis travel range `[lo, hi]`. -/
structure AxisRange where
  lo : ℚ
  hi : ℚ
  deriving DecidableEq, Repr

/-- `specs.axisLimits`. -/
structure AxisLimits where
  X : AxisRange
  Y : AxisRange
  Z : AxisRange
  deriving DecidableEq, Repr

/-- Constructor input `specs` (all entries optional, as in JS). -/
structure SpecsIn where
  axisLimits : Option AxisLimits := none
  spindlePower : Option ℚ := none
  maxRPM : Option ℚ := none
  rapidTraverse : Option ℚ := none
  toolCapacity : Option ℕ := none
  maxTonnage : Option ℚ := none
  maxLaserPower : Option ℚ := none

/-- `this.specs` after the constructor applied its `||` defaults. -/
structure MachineSpecs where
  axisLimits : AxisLimits
  spindlePower : ℚ
  maxRPM : ℚ
  rapidTraverse : ℚ
  toolCapacity : ℕ
  deriving DecidableEq, Repr

/-- A tool record (mill/lathe only).  `diameter`/`length` are stored by
the source as `toFixed(2)` strings; we keep their numeric value. -/
structure Tool where
  number : ℕ
  ttype : String
  diameter : ℚ
  tlength : ℚ
  currentLife : ℚ
  maxLife : ℚ
  flutes : ℤ
  coating : String
  description : String
  inUse : Bool
  totalCuts : ℕ
  deriving DecidableEq, Repr

/-- Coolant block (mill/lathe only). -/
structure Coolant where
  level : ℚ
  pressure : ℚ
  temperature : ℚ
  flow : ℚ
  deriving DecidableEq, Repr

/-- One `alarmHistory` entry. -/
structure AlarmEntry where
  code : Option ℤ
  message : String
  timestamp : String
  cyclePhase : Phase
  spindleLoad : ℚ
  cleared : Bool
  deriving DecidableEq, Repr

/-- One entry of the `warnings` list. -/
structure Warning where
  wtype : String
  severity : String
  message : String
  deriving DecidableEq, Repr

/-- The full mutable machine state of `HaasMachine`. -/
structure HaasMachine where
  id : String
  name : String
  model : String
  mtype : MachineType
  specs : MachineSpecs
  power : Bool
  execution : Execution
  cyclePhase : Phase
  timeInPhase : ℚ
  cycleTimeTarget : ℚ
  alarm : Option String
  alarmCode : Option ℤ
  alarmHistory : List AlarmEntry
  warnings : List Warning
  spindleSpeed : ℚ
  targetSpindleSpeed : ℚ
  spindleLoad : ℚ
  spindleTemp : ℚ
  spindleHours : ℚ
  spindleOrientation : ℚ
  feedRate : ℚ
  targetFeed : ℚ
  rapidRate : ℚ
  axisX : ℚ
  axisY : ℚ
  axisZ : ℚ
  servoLoadX : ℚ
  servoLoadY : ℚ
  servoLoadZ : ℚ
  servoFEX : ℚ
  servoFEY : ℚ
  servoFEZ : ℚ
  servoTempX : ℚ
  servoTempY : ℚ
  servoTempZ : ℚ
  partCount : ℕ
  totalCycles : ℕ
  machineOnHours : ℚ
  productionRate : ℤ
  batteryVoltage : ℚ
  temperature : ℚ
  vibration : ℚ
  currentAmps : ℚ
  oilPressure : ℚ
  oilLevel : ℚ
  currentTool : ℕ
  tools : Option (List Tool)
  toolChangeCount : ℕ
  toolWear : ℚ
  coolant : Option Coolant
  tonnage : ℚ
  maxTonnage : ℚ
  ramPosition : ℚ
  backGauge : ℚ
  bendAngle : ℚ
  laserPower : ℚ
  maxLaserPower : ℚ
  gasPressure : ℚ
  resonatorTemp : ℚ
  cutSpeed : ℚ
  material : Option String
  programRunning : Option String
  timestamp : String
  deriving DecidableEq

/-- The fixed tool category table of `_initializeTools`. -/
def toolTypes : List String :=
  ["DRILL", "END_MILL", "FACE_MILL", "REAMER", "TAP", "BORING_BAR"]

/-- The fixed coating table of `_initializeTools`. -/
def coatings : List String := ["TiN", "TiCN", "AlTiN", "Uncoated"]

/-- Generate one tool record (body of the `_initializeTools` loop). -/
def mkTool (i : ℕ) (r : Rng) : Tool × Rng :=
  let (u1, r) := r.next
  let (u2, r) := r.next
  let (u3, r) := r.next
  let (u4, r) := r.next
  let (u5, r) := r.next
  let (u6, r) := r.next
  ({ number := i
     ttype := (toolTypes.get? (⌊u1 * 6⌋).toNat).getD "DRILL"
     diameter := jsToFixed 2 (u2 * 20 + 2)
     tlength := jsToFixed 2 (u3 * 100 + 50)
     currentLife := 100 - u4 * 80
     maxLife := 100
     flutes := ⌊u5 * 4⌋ + 2
     coating := (coatings.get? (⌊u6 * 4⌋).toNat).getD "TiN"
     description := "Tool " ++ toString i
     inUse := false
     totalCuts := 0 }, r)

/-- `_initializeTools`: generate tools numbered `1..count`. -/
def _initializeTools (count : ℕ) (r : Rng) : List Tool × Rng :=
  let rec go (k : ℕ) (next : ℕ) (acc : List Tool) (r : Rng) : List Tool × Rng :=
    match k with
    | 0 => (acc.reverse, r)
    | k + 1 =>
      let (t, r) := mkTool next r
      go k (next + 1) (t :: acc) r
  go count 1 [] r

/-- The `HaasMachine` constructor. -/
def mkHaasMachine (id name model : String) (mtype : MachineType)
    (specsIn : SpecsIn) (now : String) (r : Rng) : HaasMachine × Rng :=
  let specs : MachineSpecs :=
    { axisLimits := specsIn.axisLimits.getD
        { X := ⟨0, 762⟩, Y := ⟨0, 406⟩, Z := ⟨0, 508⟩ }
      spindlePower := jsOrQ specsIn.spindlePower 30
      maxRPM := jsOrQ specsIn.maxRPM 8100
      rapidTraverse := jsOrQ specsIn.rapidTraverse 1000
      toolCapacity := jsOrN specsIn.toolCapacity 24 }
  let (u, r) := r.next
  let isCnc : Bool := mtype = .CNC_MILL ∨ mtype = .LATHE
  let (tools, r) : Option (List Tool) × Rng :=
    if isCnc then
      let count := if mtype = .CNC_MILL then specs.toolCapacity else 12
      let (ts, r) := _initializeTools count r
      (some ts, r)
    else (none, r)
  ({ id := id, name := name, model := model, mtype := mtype, specs := specs
     power := true
     execution := .IDLE
     cyclePhase := .IDLE
     timeInPhase := 0
     cycleTimeTarget := 20 + u * 25
     alarm := none
     alarmCode := none
     alarmHistory := []
     warnings := []
     spindleSpeed := 0
     targetSpindleSpeed := 0
     spindleLoad := 0
     spindleTemp := 25
     spindleHours := 0
     spindleOrientation := 0
     feedRate := 0
     targetFeed := 0
     rapidRate := 0
     axisX := (specs.axisLimits.X.lo + specs.axisLimits.X.hi) / 2
     axisY := (specs.axisLimits.Y.lo + specs.axisLimits.Y.hi) / 2
     axisZ := specs.axisLimits.Z.hi
     servoLoadX := 0, servoLoadY := 0, servoLoadZ := 0
     servoFEX := 0, servoFEY := 0, servoFEZ := 0
     servoTempX := 25, servoTempY := 25, servoTempZ := 25
     partCount := 0
     totalCycles := 0
     machineOnHours := 0
     productionRate := 0
     batteryVoltage := 3.6
     temperature := 72
     vibration := 0
     currentAmps := 7
     oilPressure := 50
     oilLevel := 100
     currentTool := if isCnc then 1 else 0
     tools := tools
     toolChangeCount := 0
     toolWear := 0
     coolant := if isCnc then some ⟨100, 50, 72, 0⟩ else none
     tonnage := 0
     maxTonnage := if mtype = .PRESS_BRAKE then jsOrQ specsIn.maxTonnage 200 else 0
     ramPosition := 0
     backGauge := 0
     bendAngle := 0
     laserPower := 0
     maxLaserPower := if mtype = .LASER then jsOrQ specsIn.maxLaserPower 6000 else 0
     gasPressure := if mtype = .LASER then 240 else 0
     resonatorTemp := if mtype = .LASER then 26 else 0
     cutSpeed := 0
     material := none
     programRunning := none
     timestamp := now }, r)

/-!
Each JS method below mutates fields sequentially; the embedding computes
the new value of every assigned field (in source order, reading exactly
the fields the source statement reads, i.e. earlier assignments of the
same tick are visible through the named `let` values) and builds one
record update per control-flow branch.
-/

/-- `_phaseSpindleRamp`.  (The JS division `spindleSpeed/targetSpindleSpeed`
is only ever reached with a target of at least 3000 set by
`_startNewCycle`, so the `ℚ` convention `x/0 = 0` is never exercised.) -/
def _phaseSpindleRamp (dt : ℚ) (s : HaasMachine) : HaasMachine :=
  let sp :=
    if s.spindleSpeed < s.targetSpindleSpeed then
      if s.spindleSpeed + 350 * dt ≥ s.targetSpindleSpeed then s.targetSpindleSpeed
      else s.spindleSpeed + 350 * dt
    else s.spindleSpeed
  let tr := s.spindleSpeed < s.targetSpindleSpeed ∧
    s.spindleSpeed + 350 * dt ≥ s.targetSpindleSpeed
  { s with execution := .RUNNING,
           spindleSpeed := sp,
           cyclePhase := if tr then .RAPID else s.cyclePhase,
           timeInPhase := if tr then 0 else s.timeInPhase,
           spindleLoad := min 20 ((sp / s.targetSpindleSpeed) * 15),
           spindleOrientation := jsMod (s.spindleOrientation + sp * dt / 60) 360 }

/-- `_startNewCycle`. -/
def _startNewCycle (s : HaasMachine) (r : Rng) : HaasMachine × Rng :=
  let (u1, r) := r.next
  let (u2, r) := r.next
  let (u3, r) := r.next
  let s : HaasMachine :=
    { s with cyclePhase := .SPINDLE_RAMP, execution := .RUNNING, timeInPhase := 0,
             cycleTimeTarget := 20 + u1 * 25,
             targetSpindleSpeed := 3000 + u2 * (s.specs.maxRPM - 3000),
             targetFeed := 300 + u3 * 1500 }
  if strTruthy s.programRunning then (s, r)
  else
    let (u4, r) := r.next
    ({ s with programRunning := some ("O" ++ toString (⌊u4 * 9000 + 1000⌋ : ℤ)) }, r)

/-- `_phaseIdle`. -/
def _phaseIdle (dt : ℚ) (s : HaasMachine) (r : Rng) : HaasMachine × Rng :=
  let s : HaasMachine :=
    { s with execution := .IDLE,
             spindleSpeed := max 0 (s.spindleSpeed - 500 * dt),
             feedRate := max 0 (s.feedRate - 500 * dt),
             spindleLoad := max 0 (s.spindleLoad - 5 * dt),
             coolant := match s.coolant with
               | some c => some { c with level := min 100 (c.level + 0.1), flow := 0 }
               | none => s.coolant }
  let (u, r) := r.next
  if u < 0.05 then _startNewCycle s r else (s, r)

/-- `_phaseRapid`.  (`dtSec` is not read by the source body.) -/
def _phaseRapid (s : HaasMachine) (r : Rng) : HaasMachine × Rng :=
  let L := s.specs.axisLimits
  let (u1, r) := r.next
  let (u2, r) := r.next
  let (u3, r) := r.next
  let done := s.timeInPhase ≥ 3
  ({ s with execution := .RUNNING,
            axisX := L.X.lo + u1 * (L.X.hi - L.X.lo),
            axisY := L.Y.lo + u2 * (L.Y.hi - L.Y.lo),
            axisZ := L.Z.hi,
            rapidRate := s.specs.rapidTraverse,
            feedRate := 0,
            spindleLoad := 5 + u3 * 5,
            cyclePhase := if done then .CUTTING else s.cyclePhase,
            timeInPhase := if done then 0 else s.timeInPhase }, r)

/-- `_phaseCutting`. -/
def _phaseCutting (dt : ℚ) (s : HaasMachine) (r : Rng) : HaasMachine × Rng :=
  let feed :=
    if s.feedRate < s.targetFeed then
      if s.feedRate + 200 * dt > s.targetFeed then s.targetFeed else s.feedRate + 200 * dt
    else s.feedRate
  let L := s.specs.axisLimits
  let z := s.axisZ - 1 * dt * (feed / max s.targetFeed 1)
  let z' := if z < L.Z.lo + 5 then L.Z.lo + 5 else z
  let (u1, r) := r.next
  let load := max 0 (min 100
    ((feed / 1800) * 35 + s.toolWear * 50 + s.vibration * 8 + (u1 * 4.5 - 2)))
  let wear0 := s.toolWear + load / 250000
  let wear := if wear0 > 1 then 1 else wear0
  let (u2, r) := r.next
  let vib := wear * 3 + u2 * 0.4
  let sph := if s.spindleSpeed > 300 then s.spindleHours + dt / 3600 else s.spindleHours
  let (tools', r) : Option (List Tool) × Rng :=
    match s.tools, s.currentTool with
    | some ts, ct + 1 =>
      match ts.get? ct with
      | some tool =>
        let (u3, r) := r.next
        (some (ts.set ct { tool with currentLife := max 0 (tool.currentLife - u3 * 0.02),
                                     inUse := true, totalCuts := tool.totalCuts + 1 }), r)
      | none => (s.tools, r)
    | _, _ => (s.tools, r)
  let (coolant', r) : Option Coolant × Rng :=
    match s.coolant with
    | some c =>
      let (u4, r) := r.next
      let (u5, r) := r.next
      let (u6, r) := r.next
      let (u7, r) := r.next
      (some { level := max 0 (c.level - u4 * 0.08),
              pressure := 45 + u5 * 15,
              temperature := 72 + u6 * 15,
              flow := 5 + u7 * 3 }, r)
    | none => (s.coolant, r)
  let (u8, r) := r.next
  let (u9, r) := r.next
  let (uA, r) := r.next
  let (uB, r) := r.next
  let (uC, r) := r.next
  let done := s.timeInPhase ≥ s.cycleTimeTarget * 0.6
  ({ s with execution := .RUNNING,
            feedRate := feed,
            axisZ := z',
            spindleLoad := load,
            toolWear := wear,
            vibration := vib,
            spindleHours := sph,
            tools := tools',
            coolant := coolant',
            servoLoadX := 20 + u8 * 30,
            servoLoadY := 20 + u9 * 30,
            servoLoadZ := 30 + load * 0.5,
            servoFEX := uA * 0.002,
            servoFEY := uB * 0.002,
            servoFEZ := uC * 0.003,
            cyclePhase := if done then .RETRACT else s.cyclePhase,
            timeInPhase := if done then 0 else s.timeInPhase }, r)

/-- `_phaseRetract`. -/
def _phaseRetract (dt : ℚ) (s : HaasMachine) : HaasMachine :=
  let L := s.specs.axisLimits
  let z := s.axisZ + 4 * dt
  let done := z ≥ L.Z.hi - 10
  { s with execution := .RUNNING,
           axisZ := if done then L.Z.hi - 10 else z,
           cyclePhase := if done then .DWELL else s.cyclePhase,
           timeInPhase := if done then 0 else s.timeInPhase,
           spindleLoad := max 5 (s.spindleLoad - 10 * dt),
           feedRate := max 0 (s.feedRate - 300 * dt) }

/-- `_phaseDwell`. -/
def _phaseDwell (dt : ℚ) (s : HaasMachine) : HaasMachine :=
  let done := s.timeInPhase ≥ 2
  { s with execution := .RUNNING,
           feedRate := 0,
           spindleLoad := max 0 (s.spindleLoad - 5 * dt),
           cyclePhase := if done then .FINISH else s.cyclePhase,
           timeInPhase := if done then 0 else s.timeInPhase }

/-- `_phaseFinish`.  The JS increments `partCount` before computing the
production rate, so the rate uses the incremented count. -/
def _phaseFinish (s : HaasMachine) : HaasMachine :=
  { s with execution := .RUNNING,
           partCount := s.partCount + 1,
           totalCycles := s.totalCycles + 1,
           spindleLoad := s.spindleLoad * 0.7,
           feedRate := 0,
           tools := match s.tools, s.currentTool with
             | some ts, ct + 1 =>
               match ts.get? ct with
               | some tool => some (ts.set ct { tool with inUse := false })
               | none => s.tools
             | _, _ => s.tools,
           productionRate :=
             if s.machineOnHours > 0 then
               jsRound (((s.partCount + 1 : ℕ) : ℚ) / s.machineOnHours)
             else s.productionRate,
           cyclePhase := .IDLE,
           timeInPhase := 0 }

/-- `_updateCNCCycle`: the phase switch.  `RUNNING` has no case in the JS
switch, so a (non-reachable for mill/lathe) `RUNNING` phase is left as is. -/
def _updateCNCCycle (dt : ℚ) (s : HaasMachine) (r : Rng) : HaasMachine × Rng :=
  match s.cyclePhase with
  | .IDLE => _phaseIdle dt s r
  | .SPINDLE_RAMP => (_phaseSpindleRamp dt s, r)
  | .RAPID => _phaseRapid s r
  | .CUTTING => _phaseCutting dt s r
  | .RETRACT => (_phaseRetract dt s, r)
  | .DWELL => (_phaseDwell dt s, r)
  | .FINISH => (_phaseFinish s, r)
  | .RUNNING => (s, r)

/-- `_updatePressCycle`.  The completion branch zeroes `ramPosition` and
`tonnage` after having computed the load from the tonnage just reached. -/
def _updatePressCycle (dt : ℚ) (s : HaasMachine) (r : Rng) : HaasMachine × Rng :=
  let (s, r) : HaasMachine × Rng :=
    if s.cyclePhase = .IDLE then
      let (u, r) := r.next
      if u < 0.05 then
        let (u2, r) := r.next
        ({ s with cyclePhase := .RUNNING, execution := .RUNNING, timeInPhase := 0,
                  bendAngle := 45 + u2 * 90 }, r)
      else (s, r)
    else (s, r)
  if s.cyclePhase = .RUNNING then
    let ram := min 100 (s.ramPosition + 20 * dt)
    let ton := (ram / 100) * (s.maxTonnage * 0.8)
    if s.timeInPhase ≥ 5 then
      ({ s with spindleLoad := (ton / s.maxTonnage) * 100,
                servoLoadY := ton / s.maxTonnage * 80,
                partCount := s.partCount + 1, totalCycles := s.totalCycles + 1,
                ramPosition := 0, tonnage := 0,
                cyclePhase := .IDLE, execution := .IDLE, timeInPhase := 0 }, r)
    else
      ({ s with execution := .RUNNING, ramPosition := ram, tonnage := ton,
                spindleLoad := (ton / s.maxTonnage) * 100,
                servoLoadY := ton / s.maxTonnage * 80 }, r)
  else ({ s with execution := .IDLE, spindleLoad := 0, tonnage := 0 }, r)

/-- `_updateLaserCycle`.  The completion branch zeroes `cutSpeed` and
`feedRate` after the ramp, and the X/Y jitter of that same tick stays. -/
def _updateLaserCycle (dt : ℚ) (s : HaasMachine) (r : Rng) : HaasMachine × Rng :=
  let (s, r) : HaasMachine × Rng :=
    if s.cyclePhase = .IDLE then
      let (u, r) := r.next
      if u < 0.07 then
        let (u2, r) := r.next
        let (u3, r) := r.next
        ({ s with cyclePhase := .RUNNING, execution := .RUNNING, timeInPhase := 0,
                  laserPower := 2000 + u2 * (s.maxLaserPower - 2000),
                  targetFeed := 800 + u3 * 2200 }, r)
      else (s, r)
    else (s, r)
  if s.cyclePhase = .RUNNING then
    let cut :=
      if s.cutSpeed < s.targetFeed then
        if s.cutSpeed + 300 * dt > s.targetFeed then s.targetFeed else s.cutSpeed + 300 * dt
      else s.cutSpeed
    let (u4, r) := r.next
    let (u5, r) := r.next
    if s.timeInPhase ≥ 8 then
      ({ s with spindleLoad := (s.laserPower / s.maxLaserPower) * 100,
                axisX := s.axisX + (u4 * 10 - 5), axisY := s.axisY + (u5 * 10 - 5),
                resonatorTemp := s.resonatorTemp + (s.laserPower / s.maxLaserPower) * 0.4,
                partCount := s.partCount + 1, totalCycles := s.totalCycles + 1,
                cyclePhase := .IDLE, execution := .IDLE, timeInPhase := 0,
                cutSpeed := 0, feedRate := 0 }, r)
    else
      ({ s with execution := .RUNNING,
                spindleLoad := (s.laserPower / s.maxLaserPower) * 100,
                cutSpeed := cut, feedRate := cut,
                axisX := s.axisX + (u4 * 10 - 5), axisY := s.axisY + (u5 * 10 - 5),
                resonatorTemp := s.resonatorTemp + (s.laserPower / s.maxLaserPower) * 0.4 }, r)
  else
    ({ s with execution := .IDLE, spindleLoad := 0, cutSpeed := 0, feedRate := 0,
              resonatorTemp := max 26 (s.resonatorTemp - 0.05) }, r)

/-- `_updateHealthSensors`. -/
def _updateHealthSensors (dt : ℚ) (s : HaasMachine) (r : Rng) : HaasMachine × Rng :=
  let running := s.execution = .RUNNING
  let b := s.batteryVoltage - 0.0001 * dt
  let (u, r) := r.next
  ({ s with
     temperature := if running then min 120 (s.temperature + (s.spindleLoad / 100) * 0.3)
                    else max 72 (s.temperature - 0.2),
     spindleTemp := if running then min 95 (s.spindleTemp + (s.spindleLoad / 100) * 0.15)
                    else max 25 (s.spindleTemp - 0.03),
     currentAmps := if running then 7 + (s.spindleLoad / 100) * 8
                    else max 7 (s.currentAmps - 0.5),
     batteryVoltage := if b < 2.8 then 2.8 else b,
     oilPressure := 45 + u * 10,
     oilLevel := max 20 (s.oilLevel - 0.001),
     servoTempX := if running then min 65 (s.servoTempX + 0.1) else max 25 (s.servoTempX - 0.05),
     servoTempY := if running then min 65 (s.servoTempY + 0.1) else max 25 (s.servoTempY - 0.05),
     servoTempZ := if running then min 65 (s.servoTempZ + 0.1) else max 25 (s.servoTempZ - 0.05) },
   r)

/-- The history entry recorded by `_setAlarm`. -/
def mkAlarmEntry (now : String) (code : Option ℤ) (message : String)
    (s : HaasMachine) : AlarmEntry :=
  { code := code, message := message, timestamp := now,
    cyclePhase := s.cyclePhase, spindleLoad := s.spindleLoad, cleared := false }

/-- `_setAlarm`: set the active alarm fields and append to the history,
keeping only the last 20 entries (`slice(-20)`). -/
def _setAlarm (now : String) (code : Option ℤ) (message : String)
    (s : HaasMachine) : HaasMachine :=
  let h := s.alarmHistory ++ [mkAlarmEntry now code message s]
  { s with alarm := some message, alarmCode := code,
           alarmHistory := if h.length > 20 then h.drop (h.length - 20) else h }

/-- `_clearAlarm`: mark the newest history entry cleared (when one
exists), null the active alarm fields, reset execution to `IDLE`. -/
def _clearAlarm (s : HaasMachine) : HaasMachine :=
  let h := s.alarmHistory
  let h' :=
    match h.getLast? with
    | some e => h.set (h.length - 1) { e with cleared := true }
    | none => h
  { s with alarmHistory := h', alarm := none, alarmCode := none, execution := .IDLE }

/-!
`_checkAlarms` is a single `else if` chain for mill/lathe (first satisfied
condition whose draw succeeds wins; a satisfied condition whose draw
fails falls through to the next arm, exactly as `cond && random() < p`
does inside an `else if` ladder), one condition for press brakes and two
independent `if`s for lasers.  Each `Math.random()` is drawn only when
the condition before it in `&&` is true.  The chain is written as one
small definition per arm, last arm first.
-/

/-- Mill/lathe alarm arm: high vibration. -/
def millAlarmVib (now : String) (s : HaasMachine) (r : Rng) : HaasMachine × Rng :=
  if s.vibration > 5 then
    let (u, r) := r.next
    if u < 0.08 then (_setAlarm now none "HIGH_VIBRATION" s, r) else (s, r)
  else (s, r)

/-- Mill/lathe alarm arm: tool life expired.  When `tools && currentTool`
is truthy the `else if` chain stops here even if no alarm is raised, so
the vibration arm below it is only reachable when that guard is falsy. -/
def millAlarmTool (now : String) (s : HaasMachine) (r : Rng) : HaasMachine × Rng :=
  match s.tools, s.currentTool with
  | some ts, ct + 1 =>
    match ts.get? ct with
    | some tool =>
      if tool.currentLife < 5 then
        let (u, r) := r.next
        if u < 0.15 then (_setAlarm now none "TOOL_LIFE_EXPIRED" s, r) else (s, r)
      else (s, r)
    | none => (s, r)
  | _, _ => millAlarmVib now s r

/-- Mill/lathe alarm arm: spindle over temperature (code 200). -/
def millAlarmTemp (now : String) (s : HaasMachine) (r : Rng) : HaasMachine × Rng :=
  if s.spindleTemp > 85 then
    let (u, r) := r.next
    if u < 0.08 then (_setAlarm now (some 200) "SPINDLE OVER TEMP" s, r)
    else millAlarmTool now s r
  else millAlarmTool now s r

/-- Mill/lathe alarm arm: spindle overload. -/
def millAlarmOverload (now : String) (s : HaasMachine) (r : Rng) : HaasMachine × Rng :=
  if s.spindleLoad > 95 then
    let (u, r) := r.next
    if u < 0.05 then (_setAlarm now none "SPINDLE_OVERLOAD" s, r)
    else millAlarmTemp now s r
  else millAlarmTemp now s r

/-- Mill/lathe alarm arm: coolant pump fault (code 115). -/
def millAlarmCoolant (now : String) (s : HaasMachine) (r : Rng) : HaasMachine × Rng :=
  match s.coolant with
  | some c =>
    if c.level < 10 then
      let (u, r) := r.next
      if u < 0.1 then (_setAlarm now (some 115) "COOLANT PUMP FAULT" s, r)
      else millAlarmOverload now s r
    else millAlarmOverload now s r
  | none => millAlarmOverload now s r

/-- Mill/lathe alarm arm: low battery (code 9100). -/
def millAlarmBattery (now : String) (s : HaasMachine) (r : Rng) : HaasMachine × Rng :=
  if s.batteryVoltage < 3 then
    let (u, r) := r.next
    if u < 0.05 then (_setAlarm now (some 9100) "LOW BATTERY" s, r)
    else millAlarmCoolant now s r
  else millAlarmCoolant now s r

/-- Mill/lathe alarm arm: Z axis following error (code 105). -/
def millAlarmZ (now : String) (s : HaasMachine) (r : Rng) : HaasMachine × Rng :=
  if s.servoFEZ > 0.005 then
    let (u, r) := r.next
    if u < 0.02 then (_setAlarm now (some 105) "Z AXIS FOLLOWING ERROR" s, r)
    else millAlarmBattery now s r
  else millAlarmBattery now s r

/-- Mill/lathe alarm arm: Y axis following error (code 104). -/
def millAlarmY (now : String) (s : HaasMachine) (r : Rng) : HaasMachine × Rng :=
  if s.servoFEY > 0.005 then
    let (u, r) := r.next
    if u < 0.02 then (_setAlarm now (some 104) "Y AXIS FOLLOWING ERROR" s, r)
    else millAlarmZ now s r
  else millAlarmZ now s r

/-- Mill/lathe alarm arm: X axis following error (code 103), head of
the priority chain. -/
def millAlarmX (now : String) (s : HaasMachine) (r : Rng) : HaasMachine × Rng :=
  if s.servoFEX > 0.005 then
    let (u, r) := r.next
    if u < 0.02 then (_setAlarm now (some 103) "X AXIS FOLLOWING ERROR" s, r)
    else millAlarmY now s r
  else millAlarmY now s r

/-- `_checkAlarms`: the mill/lathe priority chain, then the press-brake
check, then the two independent laser checks. -/
def _checkAlarms (now : String) (s : HaasMachine) (r : Rng) : HaasMachine × Rng :=
  let (s, r) : HaasMachine × Rng :=
    if s.mtype = .CNC_MILL ∨ s.mtype = .LATHE then millAlarmX now s r else (s, r)
  let (s, r) : HaasMachine × Rng :=
    if s.mtype = .PRESS_BRAKE then
      if s.tonnage > s.maxTonnage * 0.9 then
        let (u, r) := r.next
        if u < 0.1 then (_setAlarm now none "OVER_TONNAGE" s, r) else (s, r)
      else (s, r)
    else (s, r)
  if s.mtype = .LASER then
    let (s, r) : HaasMachine × Rng :=
      if s.spindleLoad > 95 then
        let (u, r) := r.next
        if u < 0.1 then (_setAlarm now none "LASER_POWER_FAULT" s, r) else (s, r)
      else (s, r)
    if s.resonatorTemp > 85 then
      let (u, r) := r.next
      if u < 0.08 then (_setAlarm now none "RESONATOR_OVERHEAT" s, r) else (s, r)
    else (s, r)
  else (s, r)

/-- The warning list `_updateWarnings` rebuilds from the current state. -/
def warningsOf (s : HaasMachine) : List Warning :=
  (if s.batteryVoltage < 3.2 then
     [{ wtype := "BATTERY_LOW", severity := "warning", message := "Battery voltage low" }]
   else [])
  ++ (match s.coolant with
      | some c =>
        if c.level < 20 then
          [{ wtype := "COOLANT_LOW", severity := "warning", message := "Coolant level below 20%" }]
        else []
      | none => [])
  ++ (match s.tools, s.currentTool with
      | some ts, ct + 1 =>
        match ts.get? ct with
        | some tool =>
          if tool.currentLife < 15 then
            [{ wtype := "TOOL_WEAR", severity := "warning",
               message := "Tool " ++ toString (ct + 1) ++ " life below 15%" }]
          else []
        | none => []
      | _, _ => [])
  ++ (if s.spindleTemp > 75 then
        [{ wtype := "HIGH_TEMP", severity := "warning", message := "Spindle temperature elevated" }]
      else [])
  ++ (if s.spindleLoad > 85 then
        [{ wtype := "HIGH_LOAD", severity := "caution", message := "Spindle load above 85%" }]
      else [])

/-- `_updateWarnings`: replace the warnings list with the fresh one. -/
def _updateWarnings (s : HaasMachine) : HaasMachine :=
  { s with warnings := warningsOf s }

/-- The machine-type dispatch block of `update` (its `if/else if` chain
over `this.type`). -/
def cycleDispatch (dt : ℚ) (s : HaasMachine) (r : Rng) : HaasMachine × Rng :=
  if s.mtype = .CNC_MILL ∨ s.mtype = .LATHE then _updateCNCCycle dt s r
  else if s.mtype = .PRESS_BRAKE then _updatePressCycle dt s r
  else if s.mtype = .LASER then _updateLaserCycle dt s r
  else (s, r)

/-- `update(dtSec)`: the main per-tick entry point.  The timestamp is
assigned before the power check, so even a powered-off tick refreshes it. -/
def update (now : String) (dt : ℚ) (s : HaasMachine) (r : Rng) : HaasMachine × Rng :=
  if s.power = false then
    ({ s with timestamp := now, execution := .STOPPED, cyclePhase := .IDLE,
              spindleSpeed := 0, spindleLoad := 0, feedRate := 0 }, r)
  else
    let s1 : HaasMachine :=
      { s with timestamp := now,
               machineOnHours := s.machineOnHours + dt / 3600,
               timeInPhase := s.timeInPhase + dt }
    if strTruthy s1.alarm then
      let s2 : HaasMachine :=
        { s1 with execution := .ALARM, cyclePhase := .IDLE,
                  spindleSpeed := max 0 (s1.spindleSpeed - 500 * dt), feedRate := 0 }
      let (u, r) := r.next
      if u < 0.02 then (_clearAlarm s2, r) else (s2, r)
    else
      let p1 : HaasMachine × Rng := cycleDispatch dt s1 r
      let p2 : HaasMachine × Rng := _updateHealthSensors dt p1.1 p1.2
      let p3 : HaasMachine × Rng := _checkAlarms now p2.1 p2.2
      (_updateWarnings p3.1, p3.2)

/-- `setPower`: powering off forces `STOPPED`/`IDLE` immediately. -/
def setPower (state : Bool) (s : HaasMachine) : HaasMachine :=
  if state = false then
    { s with power := state, execution := .STOPPED, cyclePhase := .IDLE }
  else { s with power := state }

/-- `injectAlarm`: delegates to `_setAlarm`. -/
def injectAlarm (now : String) (code : Option ℤ) (message : String)
    (s : HaasMachine) : HaasMachine :=
  _setAlarm now code message s

/-- `clearAlarm`: delegates to `_clearAlarm`. -/
def clearAlarm (s : HaasMachine) : HaasMachine := _clearAlarm s

/-- A sequence of `update` calls sharing one random stream. -/
def updates (now : String) (dts : List ℚ) (s : HaasMachine) (r : Rng) :
    HaasMachine × Rng :=
  match dts with
  | [] => (s, r)
  | dt :: rest =>
    let (s, r) : HaasMachine × Rng := update now dt s r
    updates now rest s r

/-- The transport record produced by `toJSON`.  Numeric fields hold the
numeric value of the JS output (`toFixed(n)` values are re-parsed with
`parseFloat` by the source's own conventions, cf. `jsToFixed`); fields
that the source attaches only for some machine types, or only when set,
are `Option`s. -/
structure Snapshot where
  id : String
  name : String
  model : String
  mtype : MachineType
  specs : MachineSpecs
  power : Bool
  execution : Execution
  cyclePhase : Phase
  alarm : Option String
  alarmCode : Option ℤ
  alarmHistory : List AlarmEntry
  warnings : List Warning
  spindleSpeed : ℤ
  spindleLoad : ℚ
  spindleTemp : ℚ
  spindleHours : ℚ
  spindleOrientation : ℤ
  feedRate : ℤ
  rapidRate : ℤ
  axisX : ℚ
  axisY : ℚ
  axisZ : ℚ
  servoLoadX : ℚ
  servoLoadY : ℚ
  servoLoadZ : ℚ
  servoFEX : ℚ
  servoFEY : ℚ
  servoFEZ : ℚ
  servoTempX : ℚ
  servoTempY : ℚ
  servoTempZ : ℚ
  partCount : ℕ
  totalCycles : ℕ
  machineOnHours : ℚ
  productionRate : ℤ
  batteryVoltage : ℚ
  temperature : ℤ
  vibration : ℚ
  currentAmps : ℚ
  oilPressure : ℤ
  oilLevel : ℤ
  timestamp : String
  currentTool : Option ℕ
  tools : Option (List Tool)
  toolChangeCount : Option ℕ
  toolWear : Option ℚ
  coolant : Option Coolant
  tonnage : Option ℤ
  maxTonnage : Option ℚ
  ramPosition : Option ℤ
  backGauge : Option ℚ
  bendAngle : Option ℤ
  laserPower : Option ℤ
  maxLaserPower : Option ℚ
  gasPressure : Option ℤ
  resonatorTemp : Option ℚ
  cutSpeed : Option ℤ
  material : Option String
  programRunning : Option String
  deriving DecidableEq

/-- `toJSON`: project the machine state into the transport record. -/
def toJSON (s : HaasMachine) : Snapshot :=
  let isCnc : Bool := s.mtype = .CNC_MILL ∨ s.mtype = .LATHE
  { id := s.id
    name := s.name
    model := s.model
    mtype := s.mtype
    specs := s.specs
    power := s.power
    execution := s.execution
    cyclePhase := s.cyclePhase
    alarm := s.alarm
    alarmCode := s.alarmCode
    alarmHistory := s.alarmHistory.drop (s.alarmHistory.length - 5)
    warnings := s.warnings
    spindleSpeed := jsRound s.spindleSpeed
    spindleLoad := jsToFixed 1 s.spindleLoad
    spindleTemp := jsToFixed 1 s.spindleTemp
    spindleHours := jsToFixed 3 s.spindleHours
    spindleOrientation := jsRound s.spindleOrientation
    feedRate := jsRound s.feedRate
    rapidRate := jsRound s.rapidRate
    axisX := jsToFixed 2 s.axisX
    axisY := jsToFixed 2 s.axisY
    axisZ := jsToFixed 2 s.axisZ
    servoLoadX := s.servoLoadX
    servoLoadY := s.servoLoadY
    servoLoadZ := s.servoLoadZ
    servoFEX := s.servoFEX
    servoFEY := s.servoFEY
    servoFEZ := s.servoFEZ
    servoTempX := s.servoTempX
    servoTempY := s.servoTempY
    servoTempZ := s.servoTempZ
    partCount := s.partCount
    totalCycles := s.totalCycles
    machineOnHours := jsToFixed 3 s.machineOnHours
    productionRate := s.productionRate
    batteryVoltage := jsToFixed 2 s.batteryVoltage
    temperature := jsRound s.temperature
    vibration := jsToFixed 2 s.vibration
    currentAmps := jsToFixed 1 s.currentAmps
    oilPressure := jsRound s.oilPressure
    oilLevel := jsRound s.oilLevel
    timestamp := s.timestamp
    currentTool := if isCnc then some s.currentTool else none
    tools := if isCnc then s.tools else none
    toolChangeCount := if isCnc then some s.toolChangeCount else none
    toolWear := if isCnc then some (jsToFixed 3 s.toolWear) else none
    coolant := if isCnc then s.coolant else none
    tonnage := if s.mtype = .PRESS_BRAKE then some (jsRound s.tonnage) else none
    maxTonnage := if s.mtype = .PRESS_BRAKE then some s.maxTonnage else none
    ramPosition := if s.mtype = .PRESS_BRAKE then some (jsRound s.ramPosition) else none
    backGauge := if s.mtype = .PRESS_BRAKE then some s.backGauge else none
    bendAngle := if s.mtype = .PRESS_BRAKE then some (jsRound s.bendAngle) else none
    laserPower := if s.mtype = .LASER then some (jsRound s.laserPower) else none
    maxLaserPower := if s.mtype = .LASER then some s.maxLaserPower else none
    gasPressure := if s.mtype = .LASER then some (jsRound s.gasPressure) else none
    resonatorTemp := if s.mtype = .LASER then some (jsToFixed 1 s.resonatorTemp) else none
    cutSpeed := if s.mtype = .LASER then some (jsRound s.cutSpeed) else none
    material := if strTruthy s.material then s.material else none
    programRunning := if strTruthy s.programRunning then s.programRunning else none }

/-!  ## Supporting lemmas  -/

/-- `b` agrees with `a` on every field except (possibly) the three active
alarm fields `alarm`, `alarmCode` and `alarmHistory`. -/
def eqExceptAlarm (a b : HaasMachine) : Prop :=
  b = { a with alarm := b.alarm, alarmCode := b.alarmCode, alarmHistory := b.alarmHistory }

theorem eqExceptAlarm_refl (a : HaasMachine) : eqExceptAlarm a a := rfl

theorem eqExceptAlarm_trans {a b c : HaasMachine}
    (h1 : eqExceptAlarm a b) (h2 : eqExceptAlarm b c) : eqExceptAlarm a c := by
  unfold eqExceptAlarm at *
  rw [h2, h1]

theorem setAlarm_eqExceptAlarm (now : String) (code : Option ℤ) (msg : String)
    (s : HaasMachine) : eqExceptAlarm s (_setAlarm now code msg s) := by
  unfold eqExceptAlarm _setAlarm
  rfl

theorem setAlarm_len_le (now : String) (code : Option ℤ) (msg : String)
    (s : HaasMachine) :
    (_setAlarm now code msg s).alarmHistory.length ≤ s.alarmHistory.length + 1 := by
  simp only [_setAlarm]
  split <;> simp <;> omega

theorem setAlarm_le20 (now : String) (code : Option ℤ) (msg : String)
    (s : HaasMachine) (h : s.alarmHistory.length ≤ 20) :
    (_setAlarm now code msg s).alarmHistory.length ≤ 20 := by
  simp only [_setAlarm]
  split <;> simp_all <;> omega

/-- One alarm-evaluation step grows the history by at most one entry and
preserves the 20-entry bound. -/
def histStep (s t : HaasMachine) : Prop :=
  t.alarmHistory.length ≤ s.alarmHistory.length + 1 ∧
  (s.alarmHistory.length ≤ 20 → t.alarmHistory.length ≤ 20)

theorem histStep_self (s : HaasMachine) : histStep s s :=
  ⟨Nat.le_succ _, fun h => h⟩

theorem histStep_setAlarm (now : String) (code : Option ℤ) (msg : String)
    (s : HaasMachine) : histStep s (_setAlarm now code msg s) :=
  ⟨setAlarm_len_le now code msg s, setAlarm_le20 now code msg s⟩

theorem millAlarmVib_frame (now : String) (s : HaasMachine) (r : Rng) :
    eqExceptAlarm s (millAlarmVib now s r).1 ∧ histStep s (millAlarmVib now s r).1 := by
  simp only [millAlarmVib, Rng.next]
  repeat' split
  all_goals
    first
    | exact ⟨setAlarm_eqExceptAlarm _ _ _ _, histStep_setAlarm _ _ _ _⟩
    | exact ⟨eqExceptAlarm_refl s, histStep_self s⟩

theorem millAlarmTool_frame (now : String) (s : HaasMachine) (r : Rng) :
    eqExceptAlarm s (millAlarmTool now s r).1 ∧ histStep s (millAlarmTool now s r).1 := by
  simp only [millAlarmTool, Rng.next]
  repeat' split
  all_goals
    first
    | exact ⟨setAlarm_eqExceptAlarm _ _ _ _, histStep_setAlarm _ _ _ _⟩
    | exact ⟨eqExceptAlarm_refl s, histStep_self s⟩
    | exact millAlarmVib_frame now s _

theorem millAlarmTemp_frame (now : String) (s : HaasMachine) (r : Rng) :
    eqExceptAlarm s (millAlarmTemp now s r).1 ∧ histStep s (millAlarmTemp now s r).1 := by
  simp only [millAlarmTemp, Rng.next]
  repeat' split
  all_goals
    first
    | exact ⟨setAlarm_eqExceptAlarm _ _ _ _, histStep_setAlarm _ _ _ _⟩
    | exact millAlarmTool_frame now s _

theorem millAlarmOverload_frame (now : String) (s : HaasMachine) (r : Rng) :
    eqExceptAlarm s (millAlarmOverload now s r).1 ∧
    histStep s (millAlarmOverload now s r).1 := by
  simp only [millAlarmOverload, Rng.next]
  repeat' split
  all_goals
    first
    | exact ⟨setAlarm_eqExceptAlarm _ _ _ _, histStep_setAlarm _ _ _ _⟩
    | exact millAlarmTemp_frame now s _

theorem millAlarmCoolant_frame (now : String) (s : HaasMachine) (r : Rng) :
    eqExceptAlarm s (millAlarmCoolant now s r).1 ∧
    histStep s (millAlarmCoolant now s r).1 := by
  simp only [millAlarmCoolant, Rng.next]
  repeat' split
  all_goals
    first
    | exact ⟨setAlarm_eqExceptAlarm _ _ _ _, histStep_setAlarm _ _ _ _⟩
    | exact millAlarmOverload_frame now s _

theorem millAlarmBattery_frame (now : String) (s : HaasMachine) (r : Rng) :
    eqExceptAlarm s (millAlarmBattery now s r).1 ∧
    histStep s (millAlarmBattery now s r).1 := by
  simp only [millAlarmBattery, Rng.next]
  repeat' split
  all_goals
    first
    | exact ⟨setAlarm_eqExceptAlarm _ _ _ _, histStep_setAlarm _ _ _ _⟩
    | exact millAlarmCoolant_frame now s _

theorem millAlarmZ_frame (now : String) (s : HaasMachine) (r : Rng) :
    eqExceptAlarm s (millAlarmZ now s r).1 ∧ histStep s (millAlarmZ now s r).1 := by
  simp only [millAlarmZ, Rng.next]
  repeat' split
  all_goals
    first
    | exact ⟨setAlarm_eqExceptAlarm _ _ _ _, histStep_setAlarm _ _ _ _⟩
    | exact millAlarmBattery_frame now s _

theorem millAlarmY_frame (now : String) (s : HaasMachine) (r : Rng) :
    eqExceptAlarm s (millAlarmY now s r).1 ∧ histStep s (millAlarmY now s r).1 := by
  simp only [millAlarmY, Rng.next]
  repeat' split
  all_goals
    first
    | exact ⟨setAlarm_eqExceptAlarm _ _ _ _, histStep_setAlarm _ _ _ _⟩
    | exact millAlarmZ_frame now s _

theorem millAlarmX_frame (now : String) (s : HaasMachine) (r : Rng) :
    eqExceptAlarm s (millAlarmX now s r).1 ∧ histStep s (millAlarmX now s r).1 := by
  simp only [millAlarmX, Rng.next]
  repeat' split
  all_goals
    first
    | exact ⟨setAlarm_eqExceptAlarm _ _ _ _, histStep_setAlarm _ _ _ _⟩
    | exact millAlarmY_frame now s _

theorem eqExceptAlarm_fields {s t : HaasMachine} (h : eqExceptAlarm s t) :
    t.mtype = s.mtype ∧ t.specs = s.specs ∧ t.power = s.power ∧
    t.cyclePhase = s.cyclePhase ∧ t.timeInPhase = s.timeInPhase ∧
    t.partCount = s.partCount ∧ t.totalCycles = s.totalCycles ∧
    t.axisX = s.axisX ∧ t.axisY = s.axisY ∧ t.axisZ = s.axisZ ∧
    t.tonnage = s.tonnage ∧ t.ramPosition = s.ramPosition ∧
    t.maxTonnage = s.maxTonnage ∧ t.warnings = s.warnings ∧
    t.spindleLoad = s.spindleLoad ∧ t.resonatorTemp = s.resonatorTemp ∧
    t.feedRate = s.feedRate ∧ t.targetFeed = s.targetFeed ∧
    t.spindleSpeed = s.spindleSpeed ∧ t.execution = s.execution ∧
    t.machineOnHours = s.machineOnHours ∧ t.timestamp = s.timestamp := by
  unfold eqExceptAlarm at h
  rw [h]
  exact ⟨rfl, rfl, rfl, rfl, rfl, rfl, rfl, rfl, rfl, rfl, rfl, rfl, rfl, rfl, rfl, rfl,
         rfl, rfl, rfl, rfl, rfl, rfl⟩

theorem setAlarm_mtype (now : String) (code : Option ℤ) (msg : String) (s : HaasMachine) :
    (_setAlarm now code msg s).mtype = s.mtype := rfl

theorem setAlarm_resonatorTemp (now : String) (code : Option ℤ) (msg : String)
    (s : HaasMachine) : (_setAlarm now code msg s).resonatorTemp = s.resonatorTemp := rfl

theorem setAlarm_alarm (now : String) (code : Option ℤ) (msg : String) (s : HaasMachine) :
    (_setAlarm now code msg s).alarm = some msg := rfl

theorem setAlarm_alarmCode (now : String) (code : Option ℤ) (msg : String) (s : HaasMachine) :
    (_setAlarm now code msg s).alarmCode = code := rfl

set_option maxHeartbeats 1000000 in
theorem checkAlarms_frame (now : String) (s : HaasMachine) (r : Rng) :
    eqExceptAlarm s (_checkAlarms now s r).1 := by
  cases hm : s.mtype
  case CNC_MILL | LATHE =>
    obtain ⟨hX, -⟩ := millAlarmX_frame now s r
    rcases h1 : millAlarmX now s r with ⟨t1, q1⟩
    rw [h1] at hX
    have hX' : eqExceptAlarm s t1 := hX
    have hf := eqExceptAlarm_fields hX'
    simp only [_checkAlarms, hm, Rng.next]
    rw [h1]
    simp only [hf.1, hm, reduceCtorEq, true_or, or_true, or_false, false_or,
      or_self, reduceIte]
    exact hX
  case PRESS_BRAKE =>
    simp only [_checkAlarms, hm, Rng.next]
    simp only [reduceCtorEq, or_self, if_false, if_true, if_neg, reduceIte]
    repeat' split
    all_goals
      first
      | exact setAlarm_eqExceptAlarm _ _ _ _
      | exact eqExceptAlarm_refl _
      | simp_all [setAlarm_mtype]
  case LASER =>
    simp only [_checkAlarms, hm, Rng.next]
    simp only [reduceCtorEq, or_self, if_false, if_true, reduceIte]
    repeat' split
    all_goals
      first
      | exact eqExceptAlarm_trans (setAlarm_eqExceptAlarm _ _ _ _) (setAlarm_eqExceptAlarm _ _ _ _)
      | exact setAlarm_eqExceptAlarm _ _ _ _
      | exact eqExceptAlarm_refl _
      | simp_all [setAlarm_mtype, setAlarm_resonatorTemp]

set_option maxHeartbeats 1000000 in
/-- History growth of one `_checkAlarms` call: at most one new entry for
mill/lathe/press (the `else if` chain and the single press arm), at most
two for lasers (two independent `if`s), and the 20-entry bound is
preserved for every type. -/
theorem checkAlarms_hist (now : String) (s : HaasMachine) (r : Rng) :
    (s.mtype ≠ .LASER →
      (_checkAlarms now s r).1.alarmHistory.length ≤ s.alarmHistory.length + 1) ∧
    (_checkAlarms now s r).1.alarmHistory.length ≤ s.alarmHistory.length + 2 ∧
    (s.alarmHistory.length ≤ 20 → (_checkAlarms now s r).1.alarmHistory.length ≤ 20) := by
  cases hm : s.mtype
  case CNC_MILL | LATHE =>
    obtain ⟨hX, hS⟩ := millAlarmX_frame now s r
    rcases h1 : millAlarmX now s r with ⟨t1, q1⟩
    rw [h1] at hX hS
    have hX' : eqExceptAlarm s t1 := hX
    have hS' : histStep s t1 := hS
    have hf := eqExceptAlarm_fields hX'
    simp only [_checkAlarms, hm, Rng.next]
    rw [h1]
    simp only [hf.1, hm, reduceCtorEq, true_or, or_true, or_false, false_or,
      or_self, reduceIte]
    exact ⟨fun _ => hS'.1, by have := hS'.1; omega, hS'.2⟩
  case PRESS_BRAKE =>
    simp only [_checkAlarms, hm, Rng.next, reduceCtorEq, true_or, or_true,
      or_false, false_or, or_self, reduceIte, setAlarm_mtype]
    repeat' split
    all_goals try dsimp only
    all_goals try exact ⟨fun _ => Nat.le_succ _, by omega, fun h => h⟩
    all_goals try exact ⟨fun _ => setAlarm_len_le _ _ _ _, by
      have := setAlarm_len_le now none "OVER_TONNAGE" s
      omega, setAlarm_le20 _ _ _ _⟩
    all_goals exfalso
    all_goals simp_all [setAlarm_mtype]
  case LASER =>
    simp only [_checkAlarms, hm, Rng.next, reduceCtorEq, true_or, or_true,
      or_false, false_or, or_self, reduceIte, setAlarm_mtype,
      setAlarm_resonatorTemp]
    repeat' split
    all_goals try dsimp only
    all_goals try exact ⟨fun h => absurd rfl h, by omega, fun h => h⟩
    all_goals try exact ⟨fun h => absurd rfl h, by
      have h1 := setAlarm_len_le now none "LASER_POWER_FAULT" s
      have h2 := setAlarm_len_le now none "RESONATOR_OVERHEAT"
        (_setAlarm now none "LASER_POWER_FAULT" s)
      omega,
      fun h => setAlarm_le20 _ _ _ _ (setAlarm_le20 _ _ _ _ h)⟩
    all_goals try exact ⟨fun h => absurd rfl h, by
      have := setAlarm_len_le now none "LASER_POWER_FAULT" s
      omega, fun h => setAlarm_le20 _ _ _ _ h⟩
    all_goals try exact ⟨fun h => absurd rfl h, by
      have := setAlarm_len_le now none "RESONATOR_OVERHEAT" s
      omega, fun h => setAlarm_le20 _ _ _ _ h⟩
    all_goals exfalso
    all_goals simp_all [setAlarm_mtype, setAlarm_resonatorTemp]

/-- Fields no cycle updater ever writes. -/
def cycleFrame (s t : HaasMachine) : Prop :=
  t.alarm = s.alarm ∧ t.alarmCode = s.alarmCode ∧ t.alarmHistory = s.alarmHistory ∧
  t.warnings = s.warnings ∧ t.mtype = s.mtype ∧ t.specs = s.specs ∧ t.power = s.power ∧
  t.maxTonnage = s.maxTonnage ∧ t.maxLaserPower = s.maxLaserPower ∧
  t.machineOnHours = s.machineOnHours ∧ t.batteryVoltage = s.batteryVoltage ∧
  t.currentTool = s.currentTool

theorem startNewCycle_facts (s : HaasMachine) (r : Rng) :
    cycleFrame s (_startNewCycle s r).1 ∧
    (_startNewCycle s r).1.axisX = s.axisX ∧
    (_startNewCycle s r).1.axisY = s.axisY ∧
    (_startNewCycle s r).1.axisZ = s.axisZ ∧
    (_startNewCycle s r).1.partCount = s.partCount ∧
    (_startNewCycle s r).1.totalCycles = s.totalCycles ∧
    (_startNewCycle s r).1.cyclePhase = .SPINDLE_RAMP ∧
    (_startNewCycle s r).1.feedRate = s.feedRate := by
  simp only [cycleFrame, _startNewCycle, Rng.next]
  repeat' split
  all_goals simp

theorem phaseIdle_facts (dt : ℚ) (s : HaasMachine) (r : Rng) :
    cycleFrame s (_phaseIdle dt s r).1 ∧
    (_phaseIdle dt s r).1.axisX = s.axisX ∧
    (_phaseIdle dt s r).1.axisY = s.axisY ∧
    (_phaseIdle dt s r).1.axisZ = s.axisZ ∧
    (_phaseIdle dt s r).1.partCount = s.partCount ∧
    (_phaseIdle dt s r).1.totalCycles = s.totalCycles ∧
    ((_phaseIdle dt s r).1.cyclePhase = .SPINDLE_RAMP ∨
      (_phaseIdle dt s r).1.cyclePhase = s.cyclePhase) := by
  simp only [_phaseIdle, Rng.next]
  split
  · refine ⟨?_, ?_, ?_, ?_, ?_, ?_, Or.inl ?_⟩
    · exact (startNewCycle_facts _ _).1
    · exact (startNewCycle_facts _ _).2.1
    · exact (startNewCycle_facts _ _).2.2.1
    · exact (startNewCycle_facts _ _).2.2.2.1
    · exact (startNewCycle_facts _ _).2.2.2.2.1
    · exact (startNewCycle_facts _ _).2.2.2.2.2.1
    · exact (startNewCycle_facts _ _).2.2.2.2.2.2.1
  · exact ⟨⟨rfl, rfl, rfl, rfl, rfl, rfl, rfl, rfl, rfl, rfl, rfl, rfl⟩,
      rfl, rfl, rfl, rfl, rfl, Or.inr rfl⟩

theorem phaseSpindleRamp_facts (dt : ℚ) (s : HaasMachine) :
    cycleFrame s (_phaseSpindleRamp dt s) ∧
    (_phaseSpindleRamp dt s).axisX = s.axisX ∧
    (_phaseSpindleRamp dt s).axisY = s.axisY ∧
    (_phaseSpindleRamp dt s).axisZ = s.axisZ ∧
    (_phaseSpindleRamp dt s).partCount = s.partCount ∧
    (_phaseSpindleRamp dt s).totalCycles = s.totalCycles ∧
    (_phaseSpindleRamp dt s).feedRate = s.feedRate ∧
    (_phaseSpindleRamp dt s).targetFeed = s.targetFeed ∧
    ((_phaseSpindleRamp dt s).cyclePhase = .RAPID ∨
      (_phaseSpindleRamp dt s).cyclePhase = s.cyclePhase) := by
  simp only [cycleFrame, _phaseSpindleRamp]
  repeat' split
  all_goals simp

theorem phaseRapid_facts (s : HaasMachine) (r : Rng) :
    cycleFrame s (_phaseRapid s r).1 ∧
    (_phaseRapid s r).1.partCount = s.partCount ∧
    (_phaseRapid s r).1.totalCycles = s.totalCycles ∧
    (_phaseRapid s r).1.targetFeed = s.targetFeed ∧
    ((_phaseRapid s r).1.cyclePhase = .CUTTING ∨
      (_phaseRapid s r).1.cyclePhase = s.cyclePhase) := by
  simp only [cycleFrame, _phaseRapid, Rng.next]
  repeat' split
  all_goals simp

theorem phaseCutting_facts (dt : ℚ) (s : HaasMachine) (r : Rng) :
    cycleFrame s (_phaseCutting dt s r).1 ∧
    (_phaseCutting dt s r).1.axisX = s.axisX ∧
    (_phaseCutting dt s r).1.axisY = s.axisY ∧
    (_phaseCutting dt s r).1.partCount = s.partCount ∧
    (_phaseCutting dt s r).1.totalCycles = s.totalCycles ∧
    (_phaseCutting dt s r).1.targetFeed = s.targetFeed ∧
    ((_phaseCutting dt s r).1.cyclePhase = .RETRACT ∨
      (_phaseCutting dt s r).1.cyclePhase = s.cyclePhase) := by
  simp only [cycleFrame, _phaseCutting, Rng.next]
  repeat' split
  all_goals simp

theorem phaseRetract_facts (dt : ℚ) (s : HaasMachine) :
    cycleFrame s (_phaseRetract dt s) ∧
    (_phaseRetract dt s).axisX = s.axisX ∧
    (_phaseRetract dt s).axisY = s.axisY ∧
    (_phaseRetract dt s).partCount = s.partCount ∧
    (_phaseRetract dt s).totalCycles = s.totalCycles ∧
    (_phaseRetract dt s).targetFeed = s.targetFeed ∧
    ((_phaseRetract dt s).cyclePhase = .DWELL ∨
      (_phaseRetract dt s).cyclePhase = s.cyclePhase) := by
  simp only [cycleFrame, _phaseRetract]
  repeat' split
  all_goals simp

theorem phaseDwell_facts (dt : ℚ) (s : HaasMachine) :
    cycleFrame s (_phaseDwell dt s) ∧
    (_phaseDwell dt s).axisX = s.axisX ∧
    (_phaseDwell dt s).axisY = s.axisY ∧
    (_phaseDwell dt s).axisZ = s.axisZ ∧
    (_phaseDwell dt s).partCount = s.partCount ∧
    (_phaseDwell dt s).totalCycles = s.totalCycles ∧
    (_phaseDwell dt s).targetFeed = s.targetFeed ∧
    ((_phaseDwell dt s).cyclePhase = .FINISH ∨
      (_phaseDwell dt s).cyclePhase = s.cyclePhase) := by
  simp only [cycleFrame, _phaseDwell]
  repeat' split
  all_goals simp

theorem phaseFinish_facts (s : HaasMachine) :
    cycleFrame s (_phaseFinish s) ∧
    (_phaseFinish s).axisX = s.axisX ∧
    (_phaseFinish s).axisY = s.axisY ∧
    (_phaseFinish s).axisZ = s.axisZ ∧
    (_phaseFinish s).partCount = s.partCount + 1 ∧
    (_phaseFinish s).totalCycles = s.totalCycles + 1 ∧
    (_phaseFinish s).targetFeed = s.targetFeed ∧
    (_phaseFinish s).cyclePhase = .IDLE ∧
    (_phaseFinish s).timeInPhase = 0 := by
  exact ⟨⟨rfl, rfl, rfl, rfl, rfl, rfl, rfl, rfl, rfl, rfl, rfl, rfl⟩,
    rfl, rfl, rfl, rfl, rfl, rfl, rfl, rfl⟩

theorem updateCNCCycle_frame (dt : ℚ) (s : HaasMachine) (r : Rng) :
    cycleFrame s (_updateCNCCycle dt s r).1 := by
  simp only [_updateCNCCycle]
  split
  · exact (phaseIdle_facts dt s r).1
  · exact (phaseSpindleRamp_facts dt s).1
  · exact (phaseRapid_facts s r).1
  · exact (phaseCutting_facts dt s r).1
  · exact (phaseRetract_facts dt s).1
  · exact (phaseDwell_facts dt s).1
  · exact (phaseFinish_facts s).1
  · exact ⟨rfl, rfl, rfl, rfl, rfl, rfl, rfl, rfl, rfl, rfl, rfl, rfl⟩

theorem pressCycle_frame (dt : ℚ) (s : HaasMachine) (r : Rng) :
    cycleFrame s (_updatePressCycle dt s r).1 ∧
    (_updatePressCycle dt s r).1.axisX = s.axisX ∧
    (_updatePressCycle dt s r).1.axisY = s.axisY ∧
    (_updatePressCycle dt s r).1.axisZ = s.axisZ := by
  simp only [cycleFrame, _updatePressCycle, Rng.next]
  repeat' split
  all_goals simp

theorem laserCycle_frame (dt : ℚ) (s : HaasMachine) (r : Rng) :
    cycleFrame s (_updateLaserCycle dt s r).1 ∧
    (_updateLaserCycle dt s r).1.axisZ = s.axisZ := by
  simp only [cycleFrame, _updateLaserCycle, Rng.next]
  repeat' split
  all_goals simp

/-- `b` agrees with `a` except (possibly) on the nine health-sensor
fields written by `_updateHealthSensors`. -/
def eqExceptHealth (a b : HaasMachine) : Prop :=
  b = { a with temperature := b.temperature, spindleTemp := b.spindleTemp,
               currentAmps := b.currentAmps, batteryVoltage := b.batteryVoltage,
               oilPressure := b.oilPressure, oilLevel := b.oilLevel,
               servoTempX := b.servoTempX, servoTempY := b.servoTempY,
               servoTempZ := b.servoTempZ }

theorem health_frame (dt : ℚ) (s : HaasMachine) (r : Rng) :
    eqExceptHealth s (_updateHealthSensors dt s r).1 := by
  simp only [_updateHealthSensors, Rng.next, eqExceptHealth]

theorem eqExceptHealth_fields {s t : HaasMachine} (h : eqExceptHealth s t) :
    t.mtype = s.mtype ∧ t.specs = s.specs ∧ t.power = s.power ∧
    t.cyclePhase = s.cyclePhase ∧ t.timeInPhase = s.timeInPhase ∧
    t.partCount = s.partCount ∧ t.totalCycles = s.totalCycles ∧
    t.axisX = s.axisX ∧ t.axisY = s.axisY ∧ t.axisZ = s.axisZ ∧
    t.tonnage = s.tonnage ∧ t.ramPosition = s.ramPosition ∧
    t.maxTonnage = s.maxTonnage ∧ t.warnings = s.warnings ∧
    t.alarm = s.alarm ∧ t.alarmCode = s.alarmCode ∧
    t.alarmHistory = s.alarmHistory ∧ t.spindleLoad = s.spindleLoad ∧
    t.resonatorTemp = s.resonatorTemp ∧ t.feedRate = s.feedRate ∧
    t.targetFeed = s.targetFeed ∧ t.spindleSpeed = s.spindleSpeed ∧
    t.execution = s.execution ∧ t.machineOnHours = s.machineOnHours := by
  unfold eqExceptHealth at h
  rw [h]
  exact ⟨rfl, rfl, rfl, rfl, rfl, rfl, rfl, rfl, rfl, rfl, rfl, rfl, rfl, rfl, rfl, rfl,
         rfl, rfl, rfl, rfl, rfl, rfl, rfl, rfl⟩

theorem updateWarnings_fields (s : HaasMachine) :
    (_updateWarnings s).warnings = warningsOf s ∧
    eqExceptAlarm s { (_updateWarnings s) with warnings := s.warnings } := by
  exact ⟨rfl, rfl⟩

theorem getLast_set_last {α : Type} : ∀ (l : List α) (e : α), l ≠ [] →
    (l.set (l.length - 1) e).getLast? = some e
  | [], _, h => absurd rfl h
  | [_], _, _ => rfl
  | a :: b :: t, e, _ => by
    have ih := getLast_set_last (b :: t) e (List.cons_ne_nil _ _)
    show (a :: (b :: t).set ((b :: t).length - 1) e).getLast? = some e
    rcases hs : (b :: t).set ((b :: t).length - 1) e with _ | ⟨c, l2⟩
    · have := congrArg List.length hs
      simp at this
    · rw [List.getLast?_cons_cons, ← hs, ih]

theorem clearAlarm_fields (s : HaasMachine) :
    (_clearAlarm s).alarm = none ∧ (_clearAlarm s).alarmCode = none ∧
    (_clearAlarm s).execution = .IDLE ∧
    (_clearAlarm s).alarmHistory.length = s.alarmHistory.length ∧
    (_clearAlarm s).cyclePhase = s.cyclePhase ∧
    (_clearAlarm s).spindleSpeed = s.spindleSpeed ∧
    (_clearAlarm s).feedRate = s.feedRate ∧
    (_clearAlarm s).warnings = s.warnings ∧
    (_clearAlarm s).machineOnHours = s.machineOnHours ∧
    (_clearAlarm s).timeInPhase = s.timeInPhase ∧
    (s.alarmHistory ≠ [] →
      (_clearAlarm s).alarmHistory.getLast? =
        s.alarmHistory.getLast?.map (fun e => { e with cleared := true })) := by
  refine ⟨rfl, rfl, rfl, ?_, rfl, rfl, rfl, rfl, rfl, rfl, ?_⟩
  · rcases hL : s.alarmHistory.getLast? with _ | e
    · simp [_clearAlarm, hL]
    · simp [_clearAlarm, hL]
  · intro h
    rcases hL : s.alarmHistory.getLast? with _ | e
    · rw [List.getLast?_eq_none_iff] at hL
      exact absurd hL h
    · simp only [_clearAlarm, hL]
      exact getLast_set_last s.alarmHistory _ h

/-!  ## Concrete machines for witnesses and counterexamples  -/

/-- The all-zeros random stream (every draw is `0`, a legal
`Math.random()` value). -/
def zeroStream : ℕ → ℚ := fun _ => 0

def rng0 : Rng := ⟨zeroStream, 0⟩

theorem zeroStream_valid : validStream zeroStream := by
  intro n
  constructor
  · exact le_refl 0
  · norm_num [zeroStream]

/-- A mill with a single tool slot (`toolCapacity = 1` keeps the
constructed tool list short). -/
def millW : HaasMachine :=
  (mkHaasMachine "haas_vf2" "Haas VF-2" "VF-2" .CNC_MILL { toolCapacity := some 1 }
    "t0" rng0).1

/-- The random source left over after constructing `millW` (7 draws). -/
def millRng : Rng :=
  (mkHaasMachine "haas_vf2" "Haas VF-2" "VF-2" .CNC_MILL { toolCapacity := some 1 }
    "t0" rng0).2

/-- A laser with a narrow X travel, as the constructor accepts. -/
def laserW : HaasMachine :=
  (mkHaasMachine "fiber_laser" "Fiber Laser" "LASER" .LASER
    { axisLimits := some ⟨⟨0, 10⟩, ⟨0, 10⟩, ⟨0, 10⟩⟩ } "t0" rng0).1

/-- The random source left over after constructing `laserW` (1 draw). -/
def laserRng : Rng :=
  (mkHaasMachine "fiber_laser" "Fiber Laser" "LASER" .LASER
    { axisLimits := some ⟨⟨0, 10⟩, ⟨0, 10⟩, ⟨0, 10⟩⟩ } "t0" rng0).2

/-- A press brake constructed with the fleet's spec. -/
def pressW : HaasMachine :=
  (mkHaasMachine "durma_press" "Durma Press Brake" "PRESS" .PRESS_BRAKE
    { axisLimits := some ⟨⟨0, 100⟩, ⟨0, 2000⟩, ⟨0, 300⟩⟩, maxTonnage := some 200 }
    "t0" rng0).1

/-!  ## C8: powered-off tick  -/

/-- What a powered-off `update` does: force the five fields and touch
nothing else (`timestamp` aside). -/
def PowerOffSpec (s t : HaasMachine) : Prop :=
  t.execution = .STOPPED ∧ t.cyclePhase = .IDLE ∧ t.spindleSpeed = 0 ∧
  t.spindleLoad = 0 ∧ t.feedRate = 0 ∧
  t.machineOnHours = s.machineOnHours ∧ t.timeInPhase = s.timeInPhase ∧
  t.alarm = s.alarm ∧ t.alarmCode = s.alarmCode ∧ t.alarmHistory = s.alarmHistory ∧
  t.warnings = s.warnings ∧ t.partCount = s.partCount ∧ t.totalCycles = s.totalCycles ∧
  t.axisX = s.axisX ∧ t.axisY = s.axisY ∧ t.axisZ = s.axisZ ∧
  t.batteryVoltage = s.batteryVoltage ∧ t.spindleTemp = s.spindleTemp ∧
  t.temperature = s.temperature ∧ t.oilLevel = s.oilLevel ∧ t.oilPressure = s.oilPressure ∧
  t.toolWear = s.toolWear ∧ t.tools = s.tools ∧ t.coolant = s.coolant ∧
  t.vibration = s.vibration ∧ t.spindleHours = s.spindleHours ∧
  t.tonnage = s.tonnage ∧ t.ramPosition = s.ramPosition ∧
  t.laserPower = s.laserPower ∧ t.resonatorTemp = s.resonatorTemp ∧
  t.cutSpeed = s.cutSpeed ∧ t.targetFeed = s.targetFeed ∧
  t.targetSpindleSpeed = s.targetSpindleSpeed ∧
  t.spindleOrientation = s.spindleOrientation ∧
  t.currentAmps = s.currentAmps ∧ t.servoTempX = s.servoTempX ∧
  t.servoTempY = s.servoTempY ∧ t.servoTempZ = s.servoTempZ ∧
  t.productionRate = s.productionRate

/-- C8: a machine with `power == false` gets `STOPPED`/`IDLE`, zero
spindle speed, load, feed on the very next `update(dt)`, with no hours
accrual and no cycle, health, alarm or warning processing; the random
source is not consulted. -/
theorem power_off_tick (now : String) (dt : ℚ) (s : HaasMachine) (r : Rng)
    (hp : s.power = false) :
    PowerOffSpec s (update now dt s r).1 ∧ (update now dt s r).2 = r := by
  simp [update, hp, PowerOffSpec]

/-- C8 witness at a concrete machine: `millW` powered off. -/
theorem power_off_tick_witness :
    (setPower false millW).power = false ∧
    PowerOffSpec (setPower false millW) (update "t1" 1 (setPower false millW) rng0).1 :=
  ⟨by with_unfolding_all decide,
   (power_off_tick "t1" 1 (setPower false millW) rng0 (by with_unfolding_all decide)).1⟩

/-!  ## C2: tick with an active alarm  -/

/-- What an alarmed `update(dt)` does, as a function of the single draw
`u` it consumes: forced `ALARM`/`IDLE` (or auto-clear when `u < 0.02`,
the fixed 2% per-tick probability), spindle decay clamped at 0, zero
feed; hours and phase-time accrue; and no cycle, health, alarm
evaluation or warning recomputation happens. -/
def AlarmTickSpec (dt u : ℚ) (s t : HaasMachine) : Prop :=
  t.cyclePhase = .IDLE ∧
  t.spindleSpeed = max 0 (s.spindleSpeed - 500 * dt) ∧
  t.feedRate = 0 ∧
  t.machineOnHours = s.machineOnHours + dt / 3600 ∧
  t.timeInPhase = s.timeInPhase + dt ∧
  (if u < 0.02 then t.alarm = none ∧ t.alarmCode = none ∧ t.execution = .IDLE
   else t.alarm = s.alarm ∧ t.alarmCode = s.alarmCode ∧ t.execution = .ALARM) ∧
  t.alarmHistory.length = s.alarmHistory.length ∧
  t.warnings = s.warnings ∧
  t.batteryVoltage = s.batteryVoltage ∧ t.spindleTemp = s.spindleTemp ∧
  t.temperature = s.temperature ∧ t.partCount = s.partCount ∧
  t.totalCycles = s.totalCycles ∧
  t.axisX = s.axisX ∧ t.axisY = s.axisY ∧ t.axisZ = s.axisZ ∧
  t.toolWear = s.toolWear ∧ t.oilLevel = s.oilLevel ∧ t.spindleHours = s.spindleHours

/-- C2: with power on and an active alarm, `update(dt)` behaves exactly
as `AlarmTickSpec` describes, consuming exactly one random draw. -/
theorem alarm_tick_spec (now : String) (dt : ℚ) (s : HaasMachine) (r : Rng)
    (hp : s.power = true) (ha : strTruthy s.alarm = true) :
    AlarmTickSpec dt (r.stream r.idx) s (update now dt s r).1 ∧
    (update now dt s r).2.idx = r.idx + 1 ∧
    (update now dt s r).2.stream = r.stream := by
  simp only [update, hp, ha, Rng.next, reduceCtorEq, reduceIte, Bool.true_eq_false,
    if_false, if_true]
  split
  case isTrue h =>
    rcases hL : s.alarmHistory.getLast? with _ | e <;>
      simp [AlarmTickSpec, _clearAlarm, h, hL]
  case isFalse h =>
    simp [AlarmTickSpec, h]

/-- C2 witness: `millW` with an injected alarm, `dt = 1`, all-zero
draws (so the auto-clear branch with `0 < 0.02` fires). -/
theorem alarm_tick_spec_witness :
    (injectAlarm "t0" (some 103) "X AXIS FOLLOWING ERROR" millW).power = true ∧
    strTruthy (injectAlarm "t0" (some 103) "X AXIS FOLLOWING ERROR" millW).alarm = true ∧
    AlarmTickSpec 1 (millRng.stream millRng.idx)
      (injectAlarm "t0" (some 103) "X AXIS FOLLOWING ERROR" millW)
      (update "t1" 1 (injectAlarm "t0" (some 103) "X AXIS FOLLOWING ERROR" millW) millRng).1 :=
  ⟨by with_unfolding_all decide, by with_unfolding_all decide,
   (alarm_tick_spec "t1" 1 _ millRng (by with_unfolding_all decide)
     (by with_unfolding_all decide)).1⟩

theorem setAlarm_getLast (now : String) (code : Option ℤ) (msg : String)
    (s : HaasMachine) :
    (_setAlarm now code msg s).alarmHistory.getLast? =
      some (mkAlarmEntry now code msg s) := by
  simp only [_setAlarm]
  split
  case isTrue h =>
    rw [List.length_append] at h
    rw [List.drop_append_of_le_length (by
      simp only [List.length_append, List.length_cons, List.length_nil]
      omega), List.getLast?_concat]
  case isFalse h =>
    exact List.getLast?_concat _

theorem setAlarm_hist_ne_nil (now : String) (code : Option ℤ) (msg : String)
    (s : HaasMachine) : (_setAlarm now code msg s).alarmHistory ≠ [] := by
  intro h
  have := setAlarm_getLast now code msg s
  rw [h] at this
  simp at this

/-!  ## C5: clearing an alarm  -/

/-- C5: clearing an alarm — manually via `clearAlarm()`, by the 2%
auto-clear inside `update`, or in the inject-103-then-clear scenario —
marks the most recent history entry `cleared=true` with its code and
message intact, nulls `alarm`/`alarmCode`, and sets execution `IDLE`. -/
theorem clear_alarm_contract (now : String) (dt : ℚ) (msg : String)
    (s : HaasMachine) (r : Rng) :
    ((clearAlarm s).alarm = none ∧ (clearAlarm s).alarmCode = none ∧
     (clearAlarm s).execution = .IDLE ∧
     (s.alarmHistory ≠ [] →
       (clearAlarm s).alarmHistory.getLast? =
         s.alarmHistory.getLast?.map (fun e => { e with cleared := true }))) ∧
    (s.power = true → strTruthy s.alarm = true → r.stream r.idx < 0.02 →
      (update now dt s r).1.alarm = none ∧ (update now dt s r).1.alarmCode = none ∧
      (update now dt s r).1.execution = .IDLE ∧
      (s.alarmHistory ≠ [] →
        (update now dt s r).1.alarmHistory.getLast? =
          s.alarmHistory.getLast?.map (fun e => { e with cleared := true }))) ∧
    ((clearAlarm (injectAlarm now (some 103) msg s)).alarm = none ∧
     (clearAlarm (injectAlarm now (some 103) msg s)).alarmCode = none ∧
     (clearAlarm (injectAlarm now (some 103) msg s)).alarmHistory.getLast? =
       some { code := some 103, message := msg, timestamp := now,
              cyclePhase := s.cyclePhase, spindleLoad := s.spindleLoad,
              cleared := true }) := by
  refine ⟨?_, ?_, ?_⟩
  · have hc := clearAlarm_fields s
    exact ⟨hc.1, hc.2.1, hc.2.2.1, hc.2.2.2.2.2.2.2.2.2.2⟩
  · intro hp ha hd
    simp only [update, hp, ha, Rng.next, reduceCtorEq, reduceIte,
      Bool.true_eq_false, if_false, if_true, hd]
    refine ⟨(clearAlarm_fields _).1, (clearAlarm_fields _).2.1,
      (clearAlarm_fields _).2.2.1, ?_⟩
    intro h
    exact (clearAlarm_fields _).2.2.2.2.2.2.2.2.2.2 h
  · simp only [clearAlarm, injectAlarm]
    have hc := clearAlarm_fields (_setAlarm now (some 103) msg s)
    refine ⟨hc.1, hc.2.1, ?_⟩
    rw [hc.2.2.2.2.2.2.2.2.2.2 (setAlarm_hist_ne_nil now (some 103) msg s),
        setAlarm_getLast now (some 103) msg s]
    rfl

/-- C5 witness: inject code 103 into `millW`, then clear; the last
history entry keeps code 103 and its message, and is marked cleared. -/
theorem clear_alarm_contract_witness :
    (clearAlarm (injectAlarm "t0" (some 103) "X AXIS FOLLOWING ERROR" millW)).alarm
        = none ∧
    (clearAlarm (injectAlarm "t0" (some 103) "X AXIS FOLLOWING ERROR"
        millW)).alarmHistory.getLast? =
      some { code := some 103, message := "X AXIS FOLLOWING ERROR", timestamp := "t0",
             cyclePhase := millW.cyclePhase, spindleLoad := millW.spindleLoad,
             cleared := true } :=
  ⟨(clear_alarm_contract "t0" 1 "X AXIS FOLLOWING ERROR" millW rng0).2.2.1,
   (clear_alarm_contract "t0" 1 "X AXIS FOLLOWING ERROR" millW rng0).2.2.2.2⟩

theorem cycle_dispatch_frame (dt : ℚ) (s : HaasMachine) (r : Rng) :
    cycleFrame s (cycleDispatch dt s r).1 := by
  simp only [cycleDispatch]
  split
  · exact updateCNCCycle_frame dt s r
  · split
    · exact (pressCycle_frame dt s r).1
    · split
      · exact (laserCycle_frame dt s r).1
      · exact ⟨rfl, rfl, rfl, rfl, rfl, rfl, rfl, rfl, rfl, rfl, rfl, rfl⟩

theorem updateWarnings_alarmHistory (s : HaasMachine) :
    (_updateWarnings s).alarmHistory = s.alarmHistory := rfl

theorem updateWarnings_alarm (s : HaasMachine) :
    (_updateWarnings s).alarm = s.alarm := rfl

/-- History growth along the whole power-on, no-alarm pipeline
(cycle → health → alarm evaluation → warnings). -/
theorem pipeline_hist_facts (now : String) (dt : ℚ) (s : HaasMachine) (r : Rng) :
    ((_updateWarnings (_checkAlarms now
        (_updateHealthSensors dt (cycleDispatch dt s r).1 (cycleDispatch dt s r).2).1
        (_updateHealthSensors dt (cycleDispatch dt s r).1
          (cycleDispatch dt s r).2).2).1).alarmHistory.length
      ≤ s.alarmHistory.length + 2) ∧
    (s.mtype ≠ .LASER →
      (_updateWarnings (_checkAlarms now
        (_updateHealthSensors dt (cycleDispatch dt s r).1 (cycleDispatch dt s r).2).1
        (_updateHealthSensors dt (cycleDispatch dt s r).1
          (cycleDispatch dt s r).2).2).1).alarmHistory.length
      ≤ s.alarmHistory.length + 1) ∧
    (s.alarmHistory.length ≤ 20 →
      (_updateWarnings (_checkAlarms now
        (_updateHealthSensors dt (cycleDispatch dt s r).1 (cycleDispatch dt s r).2).1
        (_updateHealthSensors dt (cycleDispatch dt s r).1
          (cycleDispatch dt s r).2).2).1).alarmHistory.length ≤ 20) := by
  have h1 := cycle_dispatch_frame dt s r
  have h2f := eqExceptHealth_fields (health_frame dt (cycleDispatch dt s r).1
    (cycleDispatch dt s r).2)
  obtain ⟨hmt2, -, -, -, -, -, -, -, -, -, -, -, -, -, -, -, hhist2, -⟩ := h2f
  have h3 := checkAlarms_hist now
    (_updateHealthSensors dt (cycleDispatch dt s r).1 (cycleDispatch dt s r).2).1
    (_updateHealthSensors dt (cycleDispatch dt s r).1 (cycleDispatch dt s r).2).2
  rw [updateWarnings_alarmHistory]
  rw [hhist2, h1.2.2.1] at h3
  rw [hmt2, h1.2.2.2.2.1] at h3
  exact ⟨h3.2.1, h3.1, h3.2.2⟩

/-- History growth and bound preservation of a full `update` call. -/
theorem update_hist_facts (now : String) (dt : ℚ) (s : HaasMachine) (r : Rng)
    (hp : s.power = true) (ha : strTruthy s.alarm = false) :
    ((update now dt s r).1.alarmHistory.length ≤ s.alarmHistory.length + 2) ∧
    (s.mtype ≠ .LASER →
      (update now dt s r).1.alarmHistory.length ≤ s.alarmHistory.length + 1) ∧
    (s.alarmHistory.length ≤ 20 → (update now dt s r).1.alarmHistory.length ≤ 20) := by
  simp only [update, hp, ha, reduceCtorEq, reduceIte, Bool.true_eq_false,
    Bool.false_eq_true, if_false, if_true]
  exact pipeline_hist_facts now dt _ r

theorem setAlarm_suffix (now : String) (code : Option ℤ) (msg : String)
    (s : HaasMachine) :
    (_setAlarm now code msg s).alarmHistory <:+
      s.alarmHistory ++ [mkAlarmEntry now code msg s] := by
  simp only [_setAlarm]
  split
  · exact List.drop_suffix _ _
  · exact List.suffix_refl _

/-!  ## C6: alarm history bound and FIFO eviction  -/

/-- C6: the alarm history never exceeds 20 entries, whether an entry is
added by the automatic evaluator inside `update` or by `injectAlarm`;
when an entry is added the resulting history is a suffix of the old
history plus the new entry (so only the oldest entries are evicted, in
FIFO order); and clearing marks in place, never removing (length
preserved). -/
theorem alarm_history_bound_fifo (now : String) (dt : ℚ) (code : Option ℤ)
    (msg : String) (s : HaasMachine) (r : Rng)
    (h20 : s.alarmHistory.length ≤ 20) :
    (injectAlarm now code msg s).alarmHistory.length ≤ 20 ∧
    (injectAlarm now code msg s).alarmHistory <:+
      s.alarmHistory ++ [mkAlarmEntry now code msg s] ∧
    (clearAlarm s).alarmHistory.length = s.alarmHistory.length ∧
    (update now dt s r).1.alarmHistory.length ≤ 20 := by
  refine ⟨setAlarm_le20 now code msg s h20, setAlarm_suffix now code msg s,
    (clearAlarm_fields s).2.2.2.1, ?_⟩
  by_cases hp : s.power = true
  · by_cases ha : strTruthy s.alarm = true
    · simp only [update, hp, ha, Rng.next, reduceCtorEq, reduceIte,
        Bool.true_eq_false, if_false, if_true]
      split
      · rw [(clearAlarm_fields _).2.2.2.1]
        exact h20
      · exact h20
    · have ha' : strTruthy s.alarm = false := by
        simpa using ha
      exact (update_hist_facts now dt s r hp ha').2.2 h20
  · have hp' : s.power = false := by
      simpa using hp
    simp only [update, hp', reduceIte]
    exact h20

/-- C6 witness: inject into `millW` (history empty, hence within bound). -/
theorem alarm_history_bound_fifo_witness :
    millW.alarmHistory.length ≤ 20 ∧
    (injectAlarm "t1" (some 42) "SPINDLE_OVERLOAD" millW).alarmHistory.length ≤ 20 ∧
    (update "t1" 1 millW millRng).1.alarmHistory.length ≤ 20 :=
  ⟨by with_unfolding_all decide,
   (alarm_history_bound_fifo "t1" 1 (some 42) "SPINDLE_OVERLOAD" millW millRng
     (by with_unfolding_all decide)).1,
   (alarm_history_bound_fifo "t1" 1 (some 42) "SPINDLE_OVERLOAD" millW millRng
     (by with_unfolding_all decide)).2.2.2⟩

/-!  ## C3: alarms set per tick  -/

/-- C3 (amended): on a tick entered with no active alarm, the mill/lathe
`else if` chain and the single press arm set at most one alarm (history
grows by at most one, and when the head arm's condition holds and its
draw succeeds, alarm 103 wins regardless of the later arms); the two
LASER conditions are independent `if`s, so a laser tick can add up to
two entries. -/
theorem alarm_eval_per_tick (now : String) (dt : ℚ) (s : HaasMachine) (r : Rng)
    (ha : strTruthy s.alarm = false) :
    ((s.mtype ≠ .LASER →
        (update now dt s r).1.alarmHistory.length ≤ s.alarmHistory.length + 1) ∧
      (update now dt s r).1.alarmHistory.length ≤ s.alarmHistory.length + 2) ∧
    ((s.mtype = .CNC_MILL ∨ s.mtype = .LATHE) → s.servoFEX > 0.005 →
      r.stream r.idx < 0.02 →
      (_checkAlarms now s r).1 = _setAlarm now (some 103) "X AXIS FOLLOWING ERROR" s) := by
  constructor
  · by_cases hp : s.power = true
    · have hf := update_hist_facts now dt s r hp ha
      exact ⟨hf.2.1, hf.1⟩
    · have hp' : s.power = false := by simpa using hp
      simp only [update, hp', reduceIte]
      exact ⟨fun _ => Nat.le_succ _, by omega⟩
  · intro hm hFE hd
    rcases hm with hm | hm <;>
      simp [_checkAlarms, millAlarmX, Rng.next, hm, hFE, hd, setAlarm_mtype]

/-- C3 witness: a mill with a large X following error and an all-zero
draw stream; alarm 103 is the one set. -/
theorem alarm_eval_per_tick_witness :
    strTruthy { millW with servoFEX := 0.01 }.alarm = false ∧
    (_checkAlarms "t1" { millW with servoFEX := 0.01 } millRng).1 =
      _setAlarm "t1" (some 103) "X AXIS FOLLOWING ERROR" { millW with servoFEX := 0.01 } :=
  ⟨by with_unfolding_all decide,
   (alarm_eval_per_tick "t1" 1 { millW with servoFEX := 0.01 } millRng
      (by with_unfolding_all decide)).2
     (Or.inl (by with_unfolding_all decide))
     (by with_unfolding_all decide) (by with_unfolding_all decide)⟩

/-- A running laser over the 95% load and the 85° resonator thresholds
at once (reachable: load follows `laserPower/maxLaserPower` and the
resonator heats by 0.4° per running tick). -/
def laserCX : HaasMachine :=
  { laserW with cyclePhase := .RUNNING, execution := .RUNNING,
                laserPower := 5900, resonatorTemp := 90, timeInPhase := 0 }

/-- C3 counterexample: on one `update` tick with no active alarm, the
laser adds TWO alarm-history entries (`LASER_POWER_FAULT` then
`RESONATOR_OVERHEAT`), so "at most one alarm per tick" fails for LASER. -/
theorem laser_two_alarms_one_tick :
    strTruthy laserCX.alarm = false ∧
    (update "t1" 1 laserCX laserRng).1.alarmHistory.length =
      laserCX.alarmHistory.length + 2 ∧
    (update "t1" 1 laserCX laserRng).1.alarm = some "RESONATOR_OVERHEAT" := by
  refine ⟨?_, ?_, ?_⟩ <;> with_unfolding_all decide

theorem warningsOf_updateWarnings (s : HaasMachine) :
    warningsOf (_updateWarnings s) = warningsOf s := rfl

/-!  ## C4: warnings recomputation  -/

/-- C4 (amended): on a tick with power on and no active alarm the
warnings list is recomputed from the post-update state (a pure function
of the current thresholds, no accumulation); but on a powered-off tick
or an alarmed tick `update` returns before `_updateWarnings`, so the
stale list from the previous tick is kept unchanged. -/
theorem warnings_fresh_or_stale (now : String) (dt : ℚ) (s : HaasMachine) (r : Rng) :
    (s.power = true → strTruthy s.alarm = false →
      (update now dt s r).1.warnings = warningsOf (update now dt s r).1) ∧
    (s.power = false → (update now dt s r).1.warnings = s.warnings) ∧
    (s.power = true → strTruthy s.alarm = true →
      (update now dt s r).1.warnings = s.warnings) := by
  refine ⟨?_, ?_, ?_⟩
  · intro hp ha
    simp only [update, hp, ha, reduceCtorEq, reduceIte, Bool.true_eq_false,
      Bool.false_eq_true, if_false, if_true]
    exact (warningsOf_updateWarnings _).symm
  · intro hp
    simp only [update, hp, reduceIte]
  · intro hp ha
    simp only [update, hp, ha, Rng.next, reduceCtorEq, reduceIte,
      Bool.true_eq_false, if_false, if_true]
    split
    · exact (clearAlarm_fields _).2.2.2.2.2.2.2.1
    · rfl

/-- C4 witness: a powered, alarm-free mill tick ends with warnings equal
to the pure recomputation from the resulting state. -/
theorem warnings_fresh_or_stale_witness :
    millW.power = true ∧ strTruthy millW.alarm = false ∧
    (update "t1" 1 millW millRng).1.warnings =
      warningsOf (update "t1" 1 millW millRng).1 :=
  ⟨by with_unfolding_all decide, by with_unfolding_all decide,
   (warnings_fresh_or_stale "t1" 1 millW millRng).1
     (by with_unfolding_all decide) (by with_unfolding_all decide)⟩

/-- A powered-off mill carrying a warning from an earlier tick. -/
def millStale : HaasMachine :=
  { millW with power := false,
               warnings := [{ wtype := "HIGH_LOAD", severity := "caution",
                              message := "Spindle load above 85%" }] }

/-- C4 counterexample: on a powered-off tick the warnings list is NOT a
pure function of the post-update telemetry — the stale `HIGH_LOAD` entry
survives even though the post-update state (load forced to 0) triggers
no warning at all. -/
theorem warnings_stale_power_off :
    (update "t1" 1 millStale rng0).1.warnings ≠
      warningsOf (update "t1" 1 millStale rng0).1 := by
  with_unfolding_all decide

theorem strTruthy_isSome (o : Option String) (h : strTruthy o = true) :
    o.isSome = true := by
  cases o <;> simp_all [strTruthy]

/-!  ## C9: the snapshot serializer  -/

/-- C9: the serializer truncates the history to the most recent 5
entries, rounds `spindleLoad`/`spindleTemp` to 1 decimal, emits
speed/feed/rapid/temperature as integers, hours and wear to 3 decimals,
positions to 2 decimals, includes the type-specific block only for the
machine's own type, and includes `material`/`programRunning` only when
set; in particular `spindleLoad = 45.34999` serializes to `45.3`. -/
theorem toJSON_contract (s : HaasMachine) :
    (toJSON s).alarmHistory = s.alarmHistory.drop (s.alarmHistory.length - 5) ∧
    (toJSON s).alarmHistory.length ≤ 5 ∧
    (toJSON s).alarmHistory <:+ s.alarmHistory ∧
    (toJSON s).warnings = s.warnings ∧
    (toJSON s).spindleLoad = jsToFixed 1 s.spindleLoad ∧
    (toJSON s).spindleTemp = jsToFixed 1 s.spindleTemp ∧
    (toJSON s).spindleSpeed = jsRound s.spindleSpeed ∧
    (toJSON s).feedRate = jsRound s.feedRate ∧
    (toJSON s).rapidRate = jsRound s.rapidRate ∧
    (toJSON s).temperature = jsRound s.temperature ∧
    (toJSON s).machineOnHours = jsToFixed 3 s.machineOnHours ∧
    (toJSON s).spindleHours = jsToFixed 3 s.spindleHours ∧
    (toJSON s).axisX = jsToFixed 2 s.axisX ∧
    (toJSON s).axisY = jsToFixed 2 s.axisY ∧
    (toJSON s).axisZ = jsToFixed 2 s.axisZ ∧
    ((toJSON s).toolWear.isSome ↔ (s.mtype = .CNC_MILL ∨ s.mtype = .LATHE)) ∧
    ((s.mtype = .CNC_MILL ∨ s.mtype = .LATHE) →
      (toJSON s).toolWear = some (jsToFixed 3 s.toolWear)) ∧
    ((toJSON s).tonnage.isSome ↔ s.mtype = .PRESS_BRAKE) ∧
    (s.mtype = .PRESS_BRAKE → (toJSON s).tonnage = some (jsRound s.tonnage)) ∧
    ((toJSON s).resonatorTemp.isSome ↔ s.mtype = .LASER) ∧
    (s.mtype = .LASER → (toJSON s).resonatorTemp = some (jsToFixed 1 s.resonatorTemp)) ∧
    (s.mtype = .LASER → (toJSON s).laserPower = some (jsRound s.laserPower)) ∧
    ((toJSON s).material.isSome ↔ strTruthy s.material = true) ∧
    (strTruthy s.material = true → (toJSON s).material = s.material) ∧
    ((toJSON s).programRunning.isSome ↔ strTruthy s.programRunning = true) ∧
    (s.spindleLoad = 45.34999 → (toJSON s).spindleLoad = 45.3) := by
  refine ⟨rfl, ?_, ?_, rfl, rfl, rfl, rfl, rfl, rfl, rfl, rfl, rfl, rfl, rfl, rfl,
    ?_, ?_, ?_, ?_, ?_, ?_, ?_, ?_, ?_, ?_, ?_⟩
  · simp only [toJSON, List.length_drop]
    omega
  · exact List.drop_suffix _ _
  · cases hm : s.mtype <;> simp [toJSON, hm]
  · intro h
    rcases h with h | h <;> simp [toJSON, h]
  · cases hm : s.mtype <;> simp [toJSON, hm]
  · intro h
    simp [toJSON, h]
  · cases hm : s.mtype <;> simp [toJSON, hm]
  · intro h
    simp [toJSON, h]
  · intro h
    simp [toJSON, h]
  · rcases hm : strTruthy s.material
    · simp [toJSON, hm]
    · simpa [toJSON, hm] using strTruthy_isSome s.material hm
  · intro h
    simp [toJSON, h]
  · rcases hm : strTruthy s.programRunning
    · simp [toJSON, hm]
    · simpa [toJSON, hm] using strTruthy_isSome s.programRunning hm
  · intro h
    rw [show (toJSON s).spindleLoad = jsToFixed 1 s.spindleLoad from rfl, h]
    norm_num [jsToFixed]

/-- C9 witness: the documented rounding example. -/
theorem toJSON_contract_witness :
    (toJSON { millW with spindleLoad := 45.34999 }).spindleLoad = 45.3 :=
  (toJSON_contract
    { millW with spindleLoad := 45.34999 }).2.2.2.2.2.2.2.2.2.2.2.2.2.2.2.2.2.2.2.2.2.2.2.2.2 rfl

/-!  ## C10: press-brake tonnage safety  -/

/-- Press-brake safety invariant: ram capped at 100, tonnage below 80%
of a positive rated maximum, and no alarm ever recorded. -/
def PressInv (s : HaasMachine) : Prop :=
  s.mtype = .PRESS_BRAKE ∧ 0 < s.maxTonnage ∧ s.ramPosition ≤ 100 ∧
  s.tonnage ≤ 0.8 * s.maxTonnage ∧ s.alarm = none ∧ s.alarmHistory = []

theorem pressCycle_inv (dt : ℚ) (s : HaasMachine) (r : Rng)
    (hM : 0 < s.maxTonnage) (hram : s.ramPosition ≤ 100) :
    (_updatePressCycle dt s r).1.ramPosition ≤ 100 ∧
    (_updatePressCycle dt s r).1.tonnage ≤ 0.8 * s.maxTonnage ∧
    (_updatePressCycle dt s r).1.maxTonnage = s.maxTonnage := by
  simp only [_updatePressCycle, Rng.next]
  repeat' split
  all_goals refine ⟨?_, ?_, rfl⟩
  all_goals
    first
    | exact hram
    | exact min_le_right _ _
    | linarith
    | (have h1 : min 100 (s.ramPosition + 20 * dt) ≤ 100 := min_le_left _ _
       nlinarith [h1])

theorem checkAlarms_press_quiet (now : String) (s : HaasMachine) (r : Rng)
    (hm : s.mtype = .PRESS_BRAKE) (ht : ¬ s.tonnage > s.maxTonnage * 0.9) :
    _checkAlarms now s r = (s, r) := by
  simp [_checkAlarms, hm, ht]

/-- The normal-tick pipeline keeps the press-brake safety facts. -/
theorem press_pipeline_inv (now : String) (dt : ℚ) (s : HaasMachine) (r : Rng)
    (hm : s.mtype = .PRESS_BRAKE) (hM : 0 < s.maxTonnage)
    (hram : s.ramPosition ≤ 100) (hal : s.alarm = none) (hh : s.alarmHistory = []) :
    PressInv (_updateWarnings (_checkAlarms now
      (_updateHealthSensors dt (cycleDispatch dt s r).1 (cycleDispatch dt s r).2).1
      (_updateHealthSensors dt (cycleDispatch dt s r).1
        (cycleDispatch dt s r).2).2).1) := by
  have hdisp : cycleDispatch dt s r = _updatePressCycle dt s r := by
    simp [cycleDispatch, hm]
  rw [hdisp]
  have hcy := pressCycle_inv dt s r hM hram
  have hcyf := (pressCycle_frame dt s r).1
  have h2f := eqExceptHealth_fields
    (health_frame dt (_updatePressCycle dt s r).1 (_updatePressCycle dt s r).2)
  set s3 := (_updateHealthSensors dt (_updatePressCycle dt s r).1
    (_updatePressCycle dt s r).2).1 with hs3
  have hm3 : s3.mtype = .PRESS_BRAKE := by
    rw [h2f.1, hcyf.2.2.2.2.1]
    exact hm
  have hM3 : 0 < s3.maxTonnage := by
    rw [h2f.2.2.2.2.2.2.2.2.2.2.2.2.1, hcy.2.2]
    exact hM
  have hram3 : s3.ramPosition ≤ 100 := by
    rw [h2f.2.2.2.2.2.2.2.2.2.2.2.1]
    exact hcy.1
  have hton3 : s3.tonnage ≤ 0.8 * s3.maxTonnage := by
    rw [h2f.2.2.2.2.2.2.2.2.2.2.1, h2f.2.2.2.2.2.2.2.2.2.2.2.2.1, hcy.2.2]
    exact hcy.2.1
  have htq : ¬ s3.tonnage > s3.maxTonnage * 0.9 := by
    intro hgt
    nlinarith
  have hal3 : s3.alarm = none := by
    rw [h2f.2.2.2.2.2.2.2.2.2.2.2.2.2.2.1, hcyf.1]
    exact hal
  have hh3 : s3.alarmHistory = [] := by
    rw [h2f.2.2.2.2.2.2.2.2.2.2.2.2.2.2.2.2.1, hcyf.2.2.1]
    exact hh
  rw [checkAlarms_press_quiet now s3 _ hm3 htq]
  exact ⟨hm3, hM3, hram3, hton3, hal3, hh3⟩

theorem press_inv_step (now : String) (dt : ℚ) (s : HaasMachine) (r : Rng)
    (h : PressInv s) : PressInv (update now dt s r).1 := by
  obtain ⟨hm, hM, hram, hton, hal, hh⟩ := h
  by_cases hp : s.power = true
  · have ha : strTruthy s.alarm = false := by
      rw [hal]
      rfl
    simp only [update, hp, ha, reduceCtorEq, reduceIte, Bool.true_eq_false,
      Bool.false_eq_true, if_false, if_true]
    exact press_pipeline_inv now dt _ r hm hM hram hal hh
  · have hp' : s.power = false := by simpa using hp
    simp only [update, hp', reduceIte]
    exact ⟨hm, hM, hram, hton, hal, hh⟩

theorem press_inv_updates (now : String) (dts : List ℚ) (s : HaasMachine) (r : Rng)
    (h : PressInv s) : PressInv (updates now dts s r).1 := by
  induction dts generalizing s r with
  | nil => exact h
  | cons dt rest ih =>
    simp only [updates]
    exact ih _ _ (press_inv_step now dt s r h)

/-- C10: from construction, through any sequence of `update` calls and
with no alarm injection, a press brake keeps `tonnage ≤ 0.8·maxTonnage`
(ram is capped at 100 and tonnage is `(ram/100)·(maxTonnage·0.8)`), so
`OVER_TONNAGE` (`tonnage > 0.9·maxTonnage`) is never satisfied and the
simulation itself never sets any alarm: the active alarm stays `null`
and the alarm history stays empty. -/
theorem press_tonnage_safe (id name model now0 now : String) (sp : SpecsIn)
    (dts : List ℚ) (r0 : Rng) (hM : 0 < jsOrQ sp.maxTonnage 200) :
    (updates now dts (mkHaasMachine id name model .PRESS_BRAKE sp now0 r0).1
        (mkHaasMachine id name model .PRESS_BRAKE sp now0 r0).2).1.tonnage ≤
      0.8 * (updates now dts (mkHaasMachine id name model .PRESS_BRAKE sp now0 r0).1
        (mkHaasMachine id name model .PRESS_BRAKE sp now0 r0).2).1.maxTonnage ∧
    (updates now dts (mkHaasMachine id name model .PRESS_BRAKE sp now0 r0).1
        (mkHaasMachine id name model .PRESS_BRAKE sp now0 r0).2).1.alarm = none ∧
    (updates now dts (mkHaasMachine id name model .PRESS_BRAKE sp now0 r0).1
        (mkHaasMachine id name model .PRESS_BRAKE sp now0 r0).2).1.alarmHistory = [] := by
  have h0 : PressInv (mkHaasMachine id name model .PRESS_BRAKE sp now0 r0).1 := by
    refine ⟨rfl, ?_, ?_, ?_, rfl, rfl⟩
    · show (0:ℚ) <
        (if (MachineType.PRESS_BRAKE : MachineType) = .PRESS_BRAKE
         then jsOrQ sp.maxTonnage 200 else 0)
      simpa using hM
    · show (0:ℚ) ≤ 100
      norm_num
    · show (0:ℚ) ≤ 0.8 *
        (if (MachineType.PRESS_BRAKE : MachineType) = .PRESS_BRAKE
         then jsOrQ sp.maxTonnage 200 else 0)
      simp only [reduceCtorEq, reduceIte, if_true]
      nlinarith
  have h := press_inv_updates now dts
    (mkHaasMachine id name model .PRESS_BRAKE sp now0 r0).1
    (mkHaasMachine id name model .PRESS_BRAKE sp now0 r0).2 h0
  exact ⟨h.2.2.2.1, h.2.2.2.2.1, h.2.2.2.2.2⟩

/-- C10 witness: the fleet's press brake, three one-second ticks. -/
theorem press_tonnage_safe_witness :
    (0:ℚ) < jsOrQ (some 200) 200 ∧
    (updates "t" [1, 1, 1] pressW
      (mkHaasMachine "durma_press" "Durma Press Brake" "PRESS" .PRESS_BRAKE
        { axisLimits := some ⟨⟨0, 100⟩, ⟨0, 2000⟩, ⟨0, 300⟩⟩, maxTonnage := some 200 }
        "t0" rng0).2).1.alarmHistory = [] :=
  ⟨by norm_num [jsOrQ],
   (press_tonnage_safe "durma_press" "Durma Press Brake" "PRESS" "t0" "t"
      { axisLimits := some ⟨⟨0, 100⟩, ⟨0, 2000⟩, ⟨0, 300⟩⟩, maxTonnage := some 200 }
      [1, 1, 1] rng0 (by norm_num [jsOrQ])).2.2⟩

/-!  ## C7: mill/lathe cycle-phase progression  -/

/-- The documented successor of each phase in the mill/lathe cycle. -/
def nextPhase : Phase → Phase
  | .IDLE => .SPINDLE_RAMP
  | .SPINDLE_RAMP => .RAPID
  | .RAPID => .CUTTING
  | .CUTTING => .RETRACT
  | .RETRACT => .DWELL
  | .DWELL => .FINISH
  | .FINISH => .IDLE
  | .RUNNING => .RUNNING

/-- Health drift, alarm evaluation and warnings leave the phase, phase
timer and both production counters untouched. -/
theorem tail_pipeline_preserves (now : String) (dt : ℚ) (s : HaasMachine) (r : Rng) :
    (_updateWarnings (_checkAlarms now (_updateHealthSensors dt s r).1
      (_updateHealthSensors dt s r).2).1).cyclePhase = s.cyclePhase ∧
    (_updateWarnings (_checkAlarms now (_updateHealthSensors dt s r).1
      (_updateHealthSensors dt s r).2).1).timeInPhase = s.timeInPhase ∧
    (_updateWarnings (_checkAlarms now (_updateHealthSensors dt s r).1
      (_updateHealthSensors dt s r).2).1).partCount = s.partCount ∧
    (_updateWarnings (_checkAlarms now (_updateHealthSensors dt s r).1
      (_updateHealthSensors dt s r).2).1).totalCycles = s.totalCycles := by
  have h2f := eqExceptHealth_fields (health_frame dt s r)
  have h3f := eqExceptAlarm_fields (checkAlarms_frame now
    (_updateHealthSensors dt s r).1 (_updateHealthSensors dt s r).2)
  refine ⟨?_, ?_, ?_, ?_⟩
  · rw [show ∀ x, (_updateWarnings x).cyclePhase = x.cyclePhase from fun _ => rfl,
      h3f.2.2.2.1, h2f.2.2.2.1]
  · rw [show ∀ x, (_updateWarnings x).timeInPhase = x.timeInPhase from fun _ => rfl,
      h3f.2.2.2.2.1, h2f.2.2.2.2.1]
  · rw [show ∀ x, (_updateWarnings x).partCount = x.partCount from fun _ => rfl,
      h3f.2.2.2.2.2.1, h2f.2.2.2.2.2.1]
  · rw [show ∀ x, (_updateWarnings x).totalCycles = x.totalCycles from fun _ => rfl,
      h3f.2.2.2.2.2.2.1, h2f.2.2.2.2.2.2.1]

/-- Phase and counter behaviour of the whole normal-tick pipeline for a
mill or lathe. -/
theorem cnc_pipeline_phase (now : String) (dt : ℚ) (s : HaasMachine) (r : Rng)
    (hm : s.mtype = .CNC_MILL ∨ s.mtype = .LATHE) :
    ((_updateWarnings (_checkAlarms now
        (_updateHealthSensors dt (cycleDispatch dt s r).1 (cycleDispatch dt s r).2).1
        (_updateHealthSensors dt (cycleDispatch dt s r).1
          (cycleDispatch dt s r).2).2).1).cyclePhase = s.cyclePhase ∨
      (_updateWarnings (_checkAlarms now
        (_updateHealthSensors dt (cycleDispatch dt s r).1 (cycleDispatch dt s r).2).1
        (_updateHealthSensors dt (cycleDispatch dt s r).1
          (cycleDispatch dt s r).2).2).1).cyclePhase = nextPhase s.cyclePhase) ∧
    (s.cyclePhase = .FINISH →
      (_updateWarnings (_checkAlarms now
        (_updateHealthSensors dt (cycleDispatch dt s r).1 (cycleDispatch dt s r).2).1
        (_updateHealthSensors dt (cycleDispatch dt s r).1
          (cycleDispatch dt s r).2).2).1).cyclePhase = .IDLE ∧
      (_updateWarnings (_checkAlarms now
        (_updateHealthSensors dt (cycleDispatch dt s r).1 (cycleDispatch dt s r).2).1
        (_updateHealthSensors dt (cycleDispatch dt s r).1
          (cycleDispatch dt s r).2).2).1).timeInPhase = 0 ∧
      (_updateWarnings (_checkAlarms now
        (_updateHealthSensors dt (cycleDispatch dt s r).1 (cycleDispatch dt s r).2).1
        (_updateHealthSensors dt (cycleDispatch dt s r).1
          (cycleDispatch dt s r).2).2).1).partCount = s.partCount + 1 ∧
      (_updateWarnings (_checkAlarms now
        (_updateHealthSensors dt (cycleDispatch dt s r).1 (cycleDispatch dt s r).2).1
        (_updateHealthSensors dt (cycleDispatch dt s r).1
          (cycleDispatch dt s r).2).2).1).totalCycles = s.totalCycles + 1) ∧
    (s.cyclePhase ≠ .FINISH →
      (_updateWarnings (_checkAlarms now
        (_updateHealthSensors dt (cycleDispatch dt s r).1 (cycleDispatch dt s r).2).1
        (_updateHealthSensors dt (cycleDispatch dt s r).1
          (cycleDispatch dt s r).2).2).1).partCount = s.partCount ∧
      (_updateWarnings (_checkAlarms now
        (_updateHealthSensors dt (cycleDispatch dt s r).1 (cycleDispatch dt s r).2).1
        (_updateHealthSensors dt (cycleDispatch dt s r).1
          (cycleDispatch dt s r).2).2).1).totalCycles = s.totalCycles) := by
  have hdisp : cycleDispatch dt s r = _updateCNCCycle dt s r := by
    rcases hm with h | h <;> simp [cycleDispatch, h]
  rw [hdisp]
  cases hph : s.cyclePhase
  all_goals simp only [_updateCNCCycle, hph]
  case IDLE =>
    have ht := tail_pipeline_preserves now dt (_phaseIdle dt s r).1 (_phaseIdle dt s r).2
    have hf := phaseIdle_facts dt s r
    rw [hph] at hf
    refine ⟨?_, by simp [hph], fun _ => ⟨?_, ?_⟩⟩
    · rcases hf.2.2.2.2.2.2 with h | h
      · exact Or.inr (by rw [ht.1, h]; rfl)
      · exact Or.inl (by rw [ht.1, h])
    · rw [ht.2.2.1, hf.2.2.2.2.1]
    · rw [ht.2.2.2, hf.2.2.2.2.2.1]
  case SPINDLE_RAMP =>
    have ht := tail_pipeline_preserves now dt (_phaseSpindleRamp dt s) r
    have hf := phaseSpindleRamp_facts dt s
    rw [hph] at hf
    refine ⟨?_, by simp [hph], fun _ => ⟨?_, ?_⟩⟩
    · rcases hf.2.2.2.2.2.2.2.2 with h | h
      · exact Or.inr (by rw [ht.1, h]; rfl)
      · exact Or.inl (by rw [ht.1, h])
    · rw [ht.2.2.1, hf.2.2.2.2.1]
    · rw [ht.2.2.2, hf.2.2.2.2.2.1]
  case RAPID =>
    have ht := tail_pipeline_preserves now dt (_phaseRapid s r).1 (_phaseRapid s r).2
    have hf := phaseRapid_facts s r
    rw [hph] at hf
    refine ⟨?_, by simp [hph], fun _ => ⟨?_, ?_⟩⟩
    · rcases hf.2.2.2.2 with h | h
      · exact Or.inr (by rw [ht.1, h]; rfl)
      · exact Or.inl (by rw [ht.1, h])
    · rw [ht.2.2.1, hf.2.1]
    · rw [ht.2.2.2, hf.2.2.1]
  case CUTTING =>
    have ht := tail_pipeline_preserves now dt (_phaseCutting dt s r).1 (_phaseCutting dt s r).2
    have hf := phaseCutting_facts dt s r
    rw [hph] at hf
    refine ⟨?_, by simp [hph], fun _ => ⟨?_, ?_⟩⟩
    · rcases hf.2.2.2.2.2.2 with h | h
      · exact Or.inr (by rw [ht.1, h]; rfl)
      · exact Or.inl (by rw [ht.1, h])
    · rw [ht.2.2.1, hf.2.2.2.1]
    · rw [ht.2.2.2, hf.2.2.2.2.1]
  case RETRACT =>
    have ht := tail_pipeline_preserves now dt (_phaseRetract dt s) r
    have hf := phaseRetract_facts dt s
    rw [hph] at hf
    refine ⟨?_, by simp [hph], fun _ => ⟨?_, ?_⟩⟩
    · rcases hf.2.2.2.2.2.2 with h | h
      · exact Or.inr (by rw [ht.1, h]; rfl)
      · exact Or.inl (by rw [ht.1, h])
    · rw [ht.2.2.1, hf.2.2.2.1]
    · rw [ht.2.2.2, hf.2.2.2.2.1]
  case DWELL =>
    have ht := tail_pipeline_preserves now dt (_phaseDwell dt s) r
    have hf := phaseDwell_facts dt s
    rw [hph] at hf
    refine ⟨?_, by simp [hph], fun _ => ⟨?_, ?_⟩⟩
    · rcases hf.2.2.2.2.2.2.2 with h | h
      · exact Or.inr (by rw [ht.1, h]; rfl)
      · exact Or.inl (by rw [ht.1, h])
    · rw [ht.2.2.1, hf.2.2.2.2.1]
    · rw [ht.2.2.2, hf.2.2.2.2.2.1]
  case FINISH =>
    have ht := tail_pipeline_preserves now dt (_phaseFinish s) r
    have hf := phaseFinish_facts s
    refine ⟨Or.inr (by rw [ht.1, hf.2.2.2.2.2.2.2.1]; rfl),
      fun _ => ⟨?_, ?_, ?_, ?_⟩, fun hne => absurd rfl hne⟩
    · rw [ht.1, hf.2.2.2.2.2.2.2.1]
    · rw [ht.2.1, hf.2.2.2.2.2.2.2.2]
    · rw [ht.2.2.1, hf.2.2.2.2.1]
    · rw [ht.2.2.2, hf.2.2.2.2.2.1]
  case RUNNING =>
    have ht := tail_pipeline_preserves now dt s r
    refine ⟨Or.inl (by rw [ht.1]; exact hph), by simp [hph], fun _ => ⟨ht.2.2.1, ht.2.2.2⟩⟩

/-- C7: on a normal tick (power on, no alarm) a mill/lathe either stays
in its phase or moves to the unique next phase of
IDLE → SPINDLE_RAMP → RAPID → CUTTING → RETRACT → DWELL → FINISH → IDLE
(no phase is skipped or repeated out of order); `FINISH` returns to
`IDLE` unconditionally with the phase timer reset and increments
`partCount` and `totalCycles` by exactly one, and no other phase touches
the counters. -/
theorem cnc_phase_progression (now : String) (dt : ℚ) (s : HaasMachine) (r : Rng)
    (hm : s.mtype = .CNC_MILL ∨ s.mtype = .LATHE)
    (hp : s.power = true) (ha : strTruthy s.alarm = false) :
    ((update now dt s r).1.cyclePhase = s.cyclePhase ∨
      (update now dt s r).1.cyclePhase = nextPhase s.cyclePhase) ∧
    (s.cyclePhase = .FINISH →
      (update now dt s r).1.cyclePhase = .IDLE ∧
      (update now dt s r).1.timeInPhase = 0 ∧
      (update now dt s r).1.partCount = s.partCount + 1 ∧
      (update now dt s r).1.totalCycles = s.totalCycles + 1) ∧
    (s.cyclePhase ≠ .FINISH →
      (update now dt s r).1.partCount = s.partCount ∧
      (update now dt s r).1.totalCycles = s.totalCycles) := by
  simp only [update, hp, ha, reduceCtorEq, reduceIte, Bool.true_eq_false,
    Bool.false_eq_true, if_false, if_true]
  exact cnc_pipeline_phase now dt _ r hm

/-- C7 witness: `millW` in `IDLE` with the all-zero stream starts a
cycle, i.e. steps to `SPINDLE_RAMP = nextPhase IDLE`. -/
theorem cnc_phase_progression_witness :
    (millW.mtype = .CNC_MILL ∨ millW.mtype = .LATHE) ∧
    millW.power = true ∧ strTruthy millW.alarm = false ∧
    ((update "t1" 1 millW millRng).1.cyclePhase = millW.cyclePhase ∨
      (update "t1" 1 millW millRng).1.cyclePhase = nextPhase millW.cyclePhase) :=
  ⟨Or.inl (by with_unfolding_all decide), by with_unfolding_all decide,
   by with_unfolding_all decide,
   (cnc_phase_progression "t1" 1 millW millRng
     (Or.inl (by with_unfolding_all decide))
     (by with_unfolding_all decide) (by with_unfolding_all decide)).1⟩

/-!  ## C1: axis-limit invariant  -/

/-- Axis positions within the machine's own spec limits. -/
def axisInv (s : HaasMachine) : Prop :=
  s.specs.axisLimits.X.lo ≤ s.axisX ∧ s.axisX ≤ s.specs.axisLimits.X.hi ∧
  s.specs.axisLimits.Y.lo ≤ s.axisY ∧ s.axisY ≤ s.specs.axisLimits.Y.hi ∧
  s.specs.axisLimits.Z.lo ≤ s.axisZ ∧ s.axisZ ≤ s.specs.axisLimits.Z.hi

/-- The inductive invariant: axis positions in range plus the feed
nonnegativity the cutting-phase Z clamp relies on. -/
def cncInv (s : HaasMachine) : Prop :=
  axisInv s ∧ 0 ≤ s.feedRate ∧ 0 ≤ s.targetFeed

/-- Sanity of the axis limits: nonempty X/Y travel and at least 10 units
of Z travel (the retract target is `Z.hi - 10` and the cutting floor is
`Z.lo + 5`). -/
def specOK (s : HaasMachine) : Prop :=
  s.specs.axisLimits.X.lo ≤ s.specs.axisLimits.X.hi ∧
  s.specs.axisLimits.Y.lo ≤ s.specs.axisLimits.Y.hi ∧
  s.specs.axisLimits.Z.lo + 10 ≤ s.specs.axisLimits.Z.hi

theorem startNewCycle_stream (s : HaasMachine) (r : Rng) :
    (_startNewCycle s r).2.stream = r.stream := by
  simp only [_startNewCycle, Rng.next]
  repeat' split
  all_goals rfl

theorem phaseIdle_stream (dt : ℚ) (s : HaasMachine) (r : Rng) :
    (_phaseIdle dt s r).2.stream = r.stream := by
  simp only [_phaseIdle, Rng.next]
  split
  · exact startNewCycle_stream _ _
  · rfl

theorem phaseRapid_stream (s : HaasMachine) (r : Rng) :
    (_phaseRapid s r).2.stream = r.stream := rfl

theorem phaseCutting_stream (dt : ℚ) (s : HaasMachine) (r : Rng) :
    (_phaseCutting dt s r).2.stream = r.stream := by
  simp only [_phaseCutting, Rng.next]
  repeat' split
  all_goals rfl

theorem cnc_cycle_stream (dt : ℚ) (s : HaasMachine) (r : Rng) :
    (_updateCNCCycle dt s r).2.stream = r.stream := by
  simp only [_updateCNCCycle]
  split
  · exact phaseIdle_stream dt s r
  · rfl
  · exact phaseRapid_stream s r
  · exact phaseCutting_stream dt s r
  all_goals rfl

theorem pressCycle_stream (dt : ℚ) (s : HaasMachine) (r : Rng) :
    (_updatePressCycle dt s r).2.stream = r.stream := by
  simp only [_updatePressCycle, Rng.next]
  repeat' split
  all_goals rfl

theorem laserCycle_stream (dt : ℚ) (s : HaasMachine) (r : Rng) :
    (_updateLaserCycle dt s r).2.stream = r.stream := by
  simp only [_updateLaserCycle, Rng.next]
  repeat' split
  all_goals rfl

theorem cycleDispatch_stream (dt : ℚ) (s : HaasMachine) (r : Rng) :
    (cycleDispatch dt s r).2.stream = r.stream := by
  simp only [cycleDispatch]
  split
  · exact cnc_cycle_stream dt s r
  · split
    · exact pressCycle_stream dt s r
    · split
      · exact laserCycle_stream dt s r
      · rfl

theorem health_stream (dt : ℚ) (s : HaasMachine) (r : Rng) :
    (_updateHealthSensors dt s r).2.stream = r.stream := rfl

theorem millAlarmVib_stream (now : String) (s : HaasMachine) (r : Rng) :
    (millAlarmVib now s r).2.stream = r.stream := by
  simp only [millAlarmVib, Rng.next]
  repeat' split
  all_goals rfl

theorem millAlarmTool_stream (now : String) (s : HaasMachine) (r : Rng) :
    (millAlarmTool now s r).2.stream = r.stream := by
  simp only [millAlarmTool, Rng.next]
  repeat' split
  all_goals first | rfl | exact millAlarmVib_stream now s _

theorem millAlarmTemp_stream (now : String) (s : HaasMachine) (r : Rng) :
    (millAlarmTemp now s r).2.stream = r.stream := by
  simp only [millAlarmTemp, Rng.next]
  repeat' split
  all_goals first | rfl | exact millAlarmTool_stream now s _

theorem millAlarmOverload_stream (now : String) (s : HaasMachine) (r : Rng) :
    (millAlarmOverload now s r).2.stream = r.stream := by
  simp only [millAlarmOverload, Rng.next]
  repeat' split
  all_goals first | rfl | exact millAlarmTemp_stream now s _

theorem millAlarmCoolant_stream (now : String) (s : HaasMachine) (r : Rng) :
    (millAlarmCoolant now s r).2.stream = r.stream := by
  simp only [millAlarmCoolant, Rng.next]
  repeat' split
  all_goals first | rfl | exact millAlarmOverload_stream now s _

theorem millAlarmBattery_stream (now : String) (s : HaasMachine) (r : Rng) :
    (millAlarmBattery now s r).2.stream = r.stream := by
  simp only [millAlarmBattery, Rng.next]
  repeat' split
  all_goals first | rfl | exact millAlarmCoolant_stream now s _

theorem millAlarmZ_stream (now : String) (s : HaasMachine) (r : Rng) :
    (millAlarmZ now s r).2.stream = r.stream := by
  simp only [millAlarmZ, Rng.next]
  repeat' split
  all_goals first | rfl | exact millAlarmBattery_stream now s _

theorem millAlarmY_stream (now : String) (s : HaasMachine) (r : Rng) :
    (millAlarmY now s r).2.stream = r.stream := by
  simp only [millAlarmY, Rng.next]
  repeat' split
  all_goals first | rfl | exact millAlarmZ_stream now s _

theorem millAlarmX_stream (now : String) (s : HaasMachine) (r : Rng) :
    (millAlarmX now s r).2.stream = r.stream := by
  simp only [millAlarmX, Rng.next]
  repeat' split
  all_goals first | rfl | exact millAlarmY_stream now s _

theorem checkAlarms_stream (now : String) (s : HaasMachine) (r : Rng) :
    (_checkAlarms now s r).2.stream = r.stream := by
  cases hm : s.mtype
  case CNC_MILL | LATHE =>
    have hX := (millAlarmX_frame now s r).1
    have hS := millAlarmX_stream now s r
    rcases h1 : millAlarmX now s r with ⟨t1, q1⟩
    rw [h1] at hX hS
    have hX' : eqExceptAlarm s t1 := hX
    have hf := eqExceptAlarm_fields hX'
    simp only [_checkAlarms, hm, Rng.next]
    rw [h1]
    simp only [hf.1, hm, reduceCtorEq, true_or, or_true, or_false, false_or,
      or_self, reduceIte]
    exact hS
  case PRESS_BRAKE =>
    simp only [_checkAlarms, hm, Rng.next, reduceCtorEq, true_or, or_true,
      or_false, false_or, or_self, reduceIte, setAlarm_mtype]
    repeat' split
    all_goals rfl
  case LASER =>
    simp only [_checkAlarms, hm, Rng.next, reduceCtorEq, true_or, or_true,
      or_false, false_or, or_self, reduceIte, setAlarm_mtype,
      setAlarm_resonatorTemp]
    repeat' split
    all_goals rfl

theorem update_stream (now : String) (dt : ℚ) (s : HaasMachine) (r : Rng) :
    (update now dt s r).2.stream = r.stream := by
  by_cases hp : s.power = true
  · by_cases ha : strTruthy s.alarm = true
    · simp only [update, hp, ha, Rng.next, reduceCtorEq, reduceIte,
        Bool.true_eq_false, if_false, if_true]
      split
      all_goals rfl
    · have ha' : strTruthy s.alarm = false := by simpa using ha
      simp only [update, hp, ha', reduceCtorEq, reduceIte, Bool.true_eq_false,
        Bool.false_eq_true, if_false, if_true]
      exact (checkAlarms_stream now _ _).trans
        ((health_stream dt _ _).trans (cycleDispatch_stream dt _ r))
  · have hp' : s.power = false := by simpa using hp
    simp only [update, hp', reduceIte]

theorem startNewCycle_cncInv (s : HaasMachine) (r : Rng)
    (hv : validStream r.stream) (hs : specOK s) (hi : cncInv s) :
    cncInv (_startNewCycle s r).1 ∧ specOK (_startNewCycle s r).1 := by
  obtain ⟨⟨hx1, hx2, hy1, hy2, hz1, hz2⟩, hf0, ht0⟩ := hi
  obtain ⟨hX, hY, hZ⟩ := hs
  have h2 := (hv (r.idx + 1 + 1)).1
  have ht3 : (0:ℚ) ≤ 300 + r.stream (r.idx + 1 + 1) * 1500 := by linarith
  simp only [cncInv, axisInv, specOK, _startNewCycle, Rng.next]
  split
  all_goals exact ⟨⟨⟨hx1, hx2, hy1, hy2, hz1, hz2⟩, hf0, ht3⟩, hX, hY, hZ⟩

theorem phaseIdle_cncInv (dt : ℚ) (s : HaasMachine) (r : Rng)
    (hv : validStream r.stream) (hs : specOK s) (hi : cncInv s) :
    cncInv (_phaseIdle dt s r).1 ∧ specOK (_phaseIdle dt s r).1 := by
  obtain ⟨⟨hx1, hx2, hy1, hy2, hz1, hz2⟩, hf0, ht0⟩ := hi
  obtain ⟨hX, hY, hZ⟩ := hs
  have h3 := (hv (r.idx + 1 + 1 + 1)).1
  have ht3 : (0:ℚ) ≤ 300 + r.stream (r.idx + 1 + 1 + 1) * 1500 := by linarith
  simp only [cncInv, axisInv, specOK, _phaseIdle, _startNewCycle, Rng.next]
  repeat' split
  all_goals first
    | exact ⟨⟨⟨hx1, hx2, hy1, hy2, hz1, hz2⟩, le_max_left 0 _, ht0⟩, hX, hY, hZ⟩
    | exact ⟨⟨⟨hx1, hx2, hy1, hy2, hz1, hz2⟩, le_max_left 0 _, ht3⟩, hX, hY, hZ⟩

theorem phaseSpindleRamp_cncInv (dt : ℚ) (s : HaasMachine)
    (hs : specOK s) (hi : cncInv s) :
    cncInv (_phaseSpindleRamp dt s) ∧ specOK (_phaseSpindleRamp dt s) := by
  obtain ⟨⟨hx1, hx2, hy1, hy2, hz1, hz2⟩, hf0, ht0⟩ := hi
  obtain ⟨hX, hY, hZ⟩ := hs
  exact ⟨⟨⟨hx1, hx2, hy1, hy2, hz1, hz2⟩, hf0, ht0⟩, hX, hY, hZ⟩

theorem phaseRapid_cncInv (s : HaasMachine) (r : Rng)
    (hv : validStream r.stream) (hs : specOK s) (hi : cncInv s) :
    cncInv (_phaseRapid s r).1 ∧ specOK (_phaseRapid s r).1 := by
  obtain ⟨⟨hx1, hx2, hy1, hy2, hz1, hz2⟩, hf0, ht0⟩ := hi
  obtain ⟨hX, hY, hZ⟩ := hs
  have h0 := hv r.idx
  have h1 := hv (r.idx + 1)
  simp only [cncInv, axisInv, specOK, _phaseRapid, Rng.next]
  refine ⟨⟨⟨?_, ?_, ?_, ?_, ?_, ?_⟩, le_refl 0, ht0⟩, hX, hY, hZ⟩
  · nlinarith [mul_nonneg h0.1 (sub_nonneg.2 hX)]
  · nlinarith [mul_nonneg (sub_nonneg.2 h0.2.le) (sub_nonneg.2 hX)]
  · nlinarith [mul_nonneg h1.1 (sub_nonneg.2 hY)]
  · nlinarith [mul_nonneg (sub_nonneg.2 h1.2.le) (sub_nonneg.2 hY)]
  · linarith
  · exact le_refl _

set_option maxHeartbeats 1000000 in
theorem phaseCutting_cncInv (dt : ℚ) (s : HaasMachine) (r : Rng)
    (hdt : 0 ≤ dt) (hs : specOK s) (hi : cncInv s) :
    cncInv (_phaseCutting dt s r).1 ∧ specOK (_phaseCutting dt s r).1 := by
  obtain ⟨⟨hx1, hx2, hy1, hy2, hz1, hz2⟩, hf0, ht0⟩ := hi
  obtain ⟨hX, hY, hZ⟩ := hs
  simp only [cncInv, axisInv, specOK, _phaseCutting, Rng.next]
  repeat' split
  all_goals refine ⟨⟨⟨?_, ?_, ?_, ?_, ?_, ?_⟩, ?_, ?_⟩, ?_, ?_, ?_⟩
  all_goals first
    | assumption
    | linarith
    | exact le_trans (sub_le_self _ (mul_nonneg (mul_nonneg zero_le_one hdt)
        (div_nonneg (by linarith) (le_trans zero_le_one (le_max_right s.targetFeed 1))))) hz2

theorem phaseRetract_cncInv (dt : ℚ) (s : HaasMachine)
    (hdt : 0 ≤ dt) (hs : specOK s) (hi : cncInv s) :
    cncInv (_phaseRetract dt s) ∧ specOK (_phaseRetract dt s) := by
  obtain ⟨⟨hx1, hx2, hy1, hy2, hz1, hz2⟩, hf0, ht0⟩ := hi
  obtain ⟨hX, hY, hZ⟩ := hs
  simp only [cncInv, axisInv, specOK, _phaseRetract]
  repeat' split
  all_goals refine ⟨⟨⟨?_, ?_, ?_, ?_, ?_, ?_⟩, ?_, ?_⟩, ?_, ?_, ?_⟩
  all_goals first
    | assumption
    | exact le_max_left 0 _
    | linarith

theorem phaseDwell_cncInv (dt : ℚ) (s : HaasMachine)
    (hs : specOK s) (hi : cncInv s) :
    cncInv (_phaseDwell dt s) ∧ specOK (_phaseDwell dt s) := by
  obtain ⟨⟨hx1, hx2, hy1, hy2, hz1, hz2⟩, hf0, ht0⟩ := hi
  obtain ⟨hX, hY, hZ⟩ := hs
  simp only [cncInv, axisInv, specOK, _phaseDwell]
  repeat' split
  all_goals exact ⟨⟨⟨hx1, hx2, hy1, hy2, hz1, hz2⟩, le_refl 0, ht0⟩, hX, hY, hZ⟩

theorem phaseFinish_cncInv (s : HaasMachine)
    (hs : specOK s) (hi : cncInv s) :
    cncInv (_phaseFinish s) ∧ specOK (_phaseFinish s) := by
  obtain ⟨⟨hx1, hx2, hy1, hy2, hz1, hz2⟩, hf0, ht0⟩ := hi
  obtain ⟨hX, hY, hZ⟩ := hs
  simp only [cncInv, axisInv, specOK, _phaseFinish]
  repeat' split
  all_goals exact ⟨⟨⟨hx1, hx2, hy1, hy2, hz1, hz2⟩, le_refl 0, ht0⟩, hX, hY, hZ⟩

theorem cnc_cycle_cncInv (dt : ℚ) (s : HaasMachine) (r : Rng)
    (hv : validStream r.stream) (hdt : 0 ≤ dt) (hs : specOK s) (hi : cncInv s) :
    cncInv (_updateCNCCycle dt s r).1 ∧ specOK (_updateCNCCycle dt s r).1 := by
  simp only [_updateCNCCycle]
  split
  · exact phaseIdle_cncInv dt s r hv hs hi
  · exact phaseSpindleRamp_cncInv dt s hs hi
  · exact phaseRapid_cncInv s r hv hs hi
  · exact phaseCutting_cncInv dt s r hdt hs hi
  · exact phaseRetract_cncInv dt s hdt hs hi
  · exact phaseDwell_cncInv dt s hs hi
  · exact phaseFinish_cncInv s hs hi
  · exact ⟨hi, hs⟩

theorem pressCycle_cncInv (dt : ℚ) (s : HaasMachine) (r : Rng)
    (hs : specOK s) (hi : cncInv s) :
    cncInv (_updatePressCycle dt s r).1 ∧ specOK (_updatePressCycle dt s r).1 := by
  obtain ⟨⟨hx1, hx2, hy1, hy2, hz1, hz2⟩, hf0, ht0⟩ := hi
  obtain ⟨hX, hY, hZ⟩ := hs
  simp only [cncInv, axisInv, specOK, _updatePressCycle, Rng.next]
  repeat' split
  all_goals exact ⟨⟨⟨hx1, hx2, hy1, hy2, hz1, hz2⟩, hf0, ht0⟩, hX, hY, hZ⟩

theorem dispatch_cncInv (dt : ℚ) (s : HaasMachine) (r : Rng)
    (hm : s.mtype ≠ .LASER) (hv : validStream r.stream) (hdt : 0 ≤ dt)
    (hs : specOK s) (hi : cncInv s) :
    cncInv (cycleDispatch dt s r).1 ∧ specOK (cycleDispatch dt s r).1 := by
  cases hmt : s.mtype
  case CNC_MILL =>
    simp only [cycleDispatch, hmt, reduceCtorEq, true_or, or_true, or_false,
      false_or, or_self, reduceIte]
    exact cnc_cycle_cncInv dt s r hv hdt hs hi
  case LATHE =>
    simp only [cycleDispatch, hmt, reduceCtorEq, true_or, or_true, or_false,
      false_or, or_self, reduceIte]
    exact cnc_cycle_cncInv dt s r hv hdt hs hi
  case PRESS_BRAKE =>
    simp only [cycleDispatch, hmt, reduceCtorEq, true_or, or_true, or_false,
      false_or, or_self, reduceIte]
    exact pressCycle_cncInv dt s r hs hi
  case LASER => exact absurd hmt hm

theorem eqExceptAlarm_cncInv {s t : HaasMachine} (h : eqExceptAlarm s t)
    (hs : specOK s) (hi : cncInv s) : cncInv t ∧ specOK t := by
  unfold eqExceptAlarm at h
  rw [h]
  exact ⟨hi, hs⟩

theorem eqExceptHealth_cncInv {s t : HaasMachine} (h : eqExceptHealth s t)
    (hs : specOK s) (hi : cncInv s) : cncInv t ∧ specOK t := by
  unfold eqExceptHealth at h
  rw [h]
  exact ⟨hi, hs⟩

theorem updateWarnings_cncInv (s : HaasMachine)
    (hs : specOK s) (hi : cncInv s) :
    cncInv (_updateWarnings s) ∧ specOK (_updateWarnings s) := ⟨hi, hs⟩

theorem pipeline_cncInv (now : String) (dt : ℚ) (s : HaasMachine) (r : Rng)
    (hm : s.mtype ≠ .LASER) (hdt : 0 ≤ dt) (hv : validStream r.stream)
    (hs : specOK s) (hi : cncInv s) :
    cncInv (_updateWarnings (_checkAlarms now
        (_updateHealthSensors dt (cycleDispatch dt s r).1 (cycleDispatch dt s r).2).1
        (_updateHealthSensors dt (cycleDispatch dt s r).1
          (cycleDispatch dt s r).2).2).1) ∧
    specOK (_updateWarnings (_checkAlarms now
        (_updateHealthSensors dt (cycleDispatch dt s r).1 (cycleDispatch dt s r).2).1
        (_updateHealthSensors dt (cycleDispatch dt s r).1
          (cycleDispatch dt s r).2).2).1) ∧
    (_updateWarnings (_checkAlarms now
        (_updateHealthSensors dt (cycleDispatch dt s r).1 (cycleDispatch dt s r).2).1
        (_updateHealthSensors dt (cycleDispatch dt s r).1
          (cycleDispatch dt s r).2).2).1).mtype = s.mtype := by
  have h1 := dispatch_cncInv dt s r hm hv hdt hs hi
  have h2 := eqExceptHealth_cncInv (health_frame dt (cycleDispatch dt s r).1
    (cycleDispatch dt s r).2) h1.2 h1.1
  have h3 := eqExceptAlarm_cncInv (checkAlarms_frame now
    (_updateHealthSensors dt (cycleDispatch dt s r).1 (cycleDispatch dt s r).2).1
    (_updateHealthSensors dt (cycleDispatch dt s r).1 (cycleDispatch dt s r).2).2)
    h2.2 h2.1
  have h4 := updateWarnings_cncInv _ h3.2 h3.1
  have m1 := (cycle_dispatch_frame dt s r).2.2.2.2.1
  have m2 := (eqExceptHealth_fields (health_frame dt (cycleDispatch dt s r).1
    (cycleDispatch dt s r).2)).1
  have m3 := (eqExceptAlarm_fields (checkAlarms_frame now
    (_updateHealthSensors dt (cycleDispatch dt s r).1 (cycleDispatch dt s r).2).1
    (_updateHealthSensors dt (cycleDispatch dt s r).1
      (cycleDispatch dt s r).2).2)).1
  exact ⟨h4.1, h4.2, m3.trans (m2.trans m1)⟩

set_option maxHeartbeats 1000000 in
theorem update_cncInv (now : String) (dt : ℚ) (s : HaasMachine) (r : Rng)
    (hm : s.mtype ≠ .LASER) (hdt : 0 ≤ dt) (hv : validStream r.stream)
    (hs : specOK s) (hi : cncInv s) :
    cncInv (update now dt s r).1 ∧ specOK (update now dt s r).1 ∧
    (update now dt s r).1.mtype = s.mtype := by
  obtain ⟨⟨hx1, hx2, hy1, hy2, hz1, hz2⟩, hf0, ht0⟩ := hi
  obtain ⟨hX, hY, hZ⟩ := hs
  by_cases hp : s.power = true
  · by_cases ha : strTruthy s.alarm = true
    · simp only [update, hp, ha, Rng.next, reduceCtorEq, reduceIte,
        Bool.true_eq_false, if_false, if_true]
      split
      all_goals
        exact ⟨⟨⟨hx1, hx2, hy1, hy2, hz1, hz2⟩, le_refl 0, ht0⟩, ⟨hX, hY, hZ⟩, rfl⟩
    · have ha' : strTruthy s.alarm = false := by simpa using ha
      simp only [update, hp, ha', reduceCtorEq, reduceIte, Bool.true_eq_false,
        Bool.false_eq_true, if_false, if_true]
      exact pipeline_cncInv now dt _ r hm hdt hv ⟨hX, hY, hZ⟩
        ⟨⟨hx1, hx2, hy1, hy2, hz1, hz2⟩, hf0, ht0⟩
  · have hp' : s.power = false := by simpa using hp
    simp only [update, hp', reduceIte]
    exact ⟨⟨⟨hx1, hx2, hy1, hy2, hz1, hz2⟩, le_refl 0, ht0⟩, ⟨hX, hY, hZ⟩, trivial⟩

theorem updates_cncInv (now : String) (dts : List ℚ) (s : HaasMachine) (r : Rng)
    (hm : s.mtype ≠ .LASER) (hv : validStream r.stream)
    (hdts : ∀ dt ∈ dts, 0 ≤ dt) (hs : specOK s) (hi : cncInv s) :
    cncInv (updates now dts s r).1 := by
  induction dts generalizing s r with
  | nil => exact hi
  | cons dt rest ih =>
    simp only [updates]
    have h := update_cncInv now dt s r hm (hdts dt (by simp)) hv hs hi
    exact ih (update now dt s r).1 (update now dt s r).2
      (by rw [h.2.2]; exact hm)
      (by rw [update_stream]; exact hv)
      (fun d hd => hdts d (by simp [hd])) h.2.1 h.1

theorem initializeTools_go_stream :
    ∀ (k next : ℕ) (acc : List Tool) (r : Rng),
      (_initializeTools.go k next acc r).2.stream = r.stream
  | 0, _, _, _ => rfl
  | k + 1, next, acc, r => by
    simp only [_initializeTools.go, mkTool, Rng.next]
    exact initializeTools_go_stream k _ _ _

theorem initializeTools_stream (count : ℕ) (r : Rng) :
    (_initializeTools count r).2.stream = r.stream :=
  initializeTools_go_stream count 1 [] r

theorem mk_stream (id name model : String) (ty : MachineType) (sp : SpecsIn)
    (now : String) (r : Rng) :
    (mkHaasMachine id name model ty sp now r).2.stream = r.stream := by
  simp only [mkHaasMachine, Rng.next]
  repeat' split
  all_goals first | rfl | exact initializeTools_stream _ _

theorem mk_cncInv (id name model : String) (ty : MachineType) (sp : SpecsIn)
    (now : String) (r : Rng)
    (hX : (sp.axisLimits.getD { X := ⟨0, 762⟩, Y := ⟨0, 406⟩, Z := ⟨0, 508⟩ }).X.lo ≤
      (sp.axisLimits.getD { X := ⟨0, 762⟩, Y := ⟨0, 406⟩, Z := ⟨0, 508⟩ }).X.hi)
    (hY : (sp.axisLimits.getD { X := ⟨0, 762⟩, Y := ⟨0, 406⟩, Z := ⟨0, 508⟩ }).Y.lo ≤
      (sp.axisLimits.getD { X := ⟨0, 762⟩, Y := ⟨0, 406⟩, Z := ⟨0, 508⟩ }).Y.hi)
    (hZ : (sp.axisLimits.getD { X := ⟨0, 762⟩, Y := ⟨0, 406⟩, Z := ⟨0, 508⟩ }).Z.lo + 10 ≤
      (sp.axisLimits.getD { X := ⟨0, 762⟩, Y := ⟨0, 406⟩, Z := ⟨0, 508⟩ }).Z.hi) :
    cncInv (mkHaasMachine id name model ty sp now r).1 ∧
    specOK (mkHaasMachine id name model ty sp now r).1 ∧
    (mkHaasMachine id name model ty sp now r).1.mtype = ty := by
  simp only [cncInv, axisInv, specOK, mkHaasMachine, Rng.next]
  repeat' split
  all_goals refine ⟨⟨⟨?_, ?_, ?_, ?_, ?_, ?_⟩, ?_, ?_⟩, ⟨?_, ?_, ?_⟩, ?_⟩
  all_goals first | rfl | trivial | linarith

/-- C1 (amended): for CNC_MILL, LATHE and PRESS_BRAKE machines, from the
constructed initial state and over every sequence of `update(dt)` calls
with `dt > 0` (draws in `[0,1)`, axis limits with nonempty X/Y travel and
at least 10 units of Z travel, as every catalog spec satisfies), each
axis position stays within `[axisLimits[axis][0], axisLimits[axis][1]]`
after every call.  Lasers are excluded: their X/Y jog is unclamped and
escapes the limits (see the counterexample). -/
theorem axis_limits_invariant (id name model now0 now : String)
    (ty : MachineType) (sp : SpecsIn) (dts : List ℚ) (r0 : Rng)
    (hty : ty ≠ .LASER) (hv : validStream r0.stream)
    (hdts : ∀ dt ∈ dts, 0 < dt)
    (hX : (sp.axisLimits.getD { X := ⟨0, 762⟩, Y := ⟨0, 406⟩, Z := ⟨0, 508⟩ }).X.lo ≤
      (sp.axisLimits.getD { X := ⟨0, 762⟩, Y := ⟨0, 406⟩, Z := ⟨0, 508⟩ }).X.hi)
    (hY : (sp.axisLimits.getD { X := ⟨0, 762⟩, Y := ⟨0, 406⟩, Z := ⟨0, 508⟩ }).Y.lo ≤
      (sp.axisLimits.getD { X := ⟨0, 762⟩, Y := ⟨0, 406⟩, Z := ⟨0, 508⟩ }).Y.hi)
    (hZ : (sp.axisLimits.getD { X := ⟨0, 762⟩, Y := ⟨0, 406⟩, Z := ⟨0, 508⟩ }).Z.lo + 10 ≤
      (sp.axisLimits.getD { X := ⟨0, 762⟩, Y := ⟨0, 406⟩, Z := ⟨0, 508⟩ }).Z.hi) :
    axisInv (updates now dts (mkHaasMachine id name model ty sp now0 r0).1
      (mkHaasMachine id name model ty sp now0 r0).2).1 := by
  have h0 := mk_cncInv id name model ty sp now0 r0 hX hY hZ
  have hinv := updates_cncInv now dts
    (mkHaasMachine id name model ty sp now0 r0).1
    (mkHaasMachine id name model ty sp now0 r0).2
    (by rw [h0.2.2]; exact hty)
    (by rw [mk_stream]; exact hv)
    (fun d hd => le_of_lt (hdts d hd)) h0.2.1 h0.1
  exact hinv.1

theorem axis_limits_invariant_witness :
    axisInv (updates "t" [1, 1]
      (mkHaasMachine "haas_vf2" "Haas VF-2" "VF-2" .CNC_MILL
        { toolCapacity := some 1 } "t0" rng0).1
      (mkHaasMachine "haas_vf2" "Haas VF-2" "VF-2" .CNC_MILL
        { toolCapacity := some 1 } "t0" rng0).2).1 :=
  axis_limits_invariant "haas_vf2" "Haas VF-2" "VF-2" "t0" "t" .CNC_MILL
    { toolCapacity := some 1 } [1, 1] rng0 (by decide) zeroStream_valid
    (by with_unfolding_all decide) (by with_unfolding_all decide)
    (by with_unfolding_all decide) (by with_unfolding_all decide)

/-- C1 counterexample: a LASER constructed with X travel `[0, 10]` leaves
that range after two one-second ticks driven by the all-zeros stream
(every start check succeeds and every jog draw is 0, so X moves
`5 → 0 → -5`): `_updateLaserCycle` adds `random()*10 - 5` to X and Y
without clamping to `axisLimits`. -/
theorem laser_axis_exits_limits :
    validStream laserRng.stream ∧
    (updates "t" [1, 1] laserW laserRng).1.axisX < laserW.specs.axisLimits.X.lo := by
  constructor
  · exact zeroStream_valid
  · with_unfolding_all decide
